import Mathlib

/-!
# BME68x / BSEC integration loop (`src/bsec/bsec_integration.c`)

A shallow embedding of the host-side integration module and a verification of
its behavioural specification.

Modelling conventions

* The sensor driver (`bme68x_*`), the fusion engine (`bsec_*`) and the platform
  callbacks (`sleep`, `get_timestamp_us`, `config_load`, `state_load`,
  `state_save`, `output_ready`) are external collaborators.  They are gathered
  in one record of oracles `Env` acting on an arbitrary environment state `σ`;
  every call the module makes is also appended, in program order, to a trace of
  `Call`s, so that "which calls were made, with which arguments" is observable.
* Out-parameters are returned by the oracle: the oracle result is the content of
  the pointed-to object after the call.
* `float` is an arbitrary carrier `F` with a zero; the module only copies floats,
  except for the two unit corrections of the input assembler, which are fields of
  `SignalConv` (this covers both settings of `BME68X_USE_FPU`).
* Constants that come from the vendor headers (not part of the repository) are
  the fields of `Consts`; `vendorConsts` holds the values of the vendor headers
  and is used for concrete evaluations only.
* Fixed-width integers are `Nat`/`Int` with explicit wrap-around where the code
  can overflow (`wrap64`, `% 2 ^ 32`, `% 2 ^ 16`).
-/

namespace BsecIntegration

/-! ## Data model -/

/-- Physical input identifiers used by the input assembler
(`bsec_physical_sensor_t`, restricted to the five the module emits). -/
inductive bsec_physical_sensor_t where
  | BSEC_INPUT_PRESSURE
  | BSEC_INPUT_HUMIDITY
  | BSEC_INPUT_TEMPERATURE
  | BSEC_INPUT_GASRESISTOR
  | BSEC_INPUT_HEATSOURCE
  deriving DecidableEq, Repr

/-- Output identifiers (`bsec_virtual_sensor_t`).  The twelve constructors named
after the case labels of the demultiplexer switch are the recognised ones;
`other raw` stands for any identifier that matches none of the case labels and
so reaches the `default` branch. -/
inductive bsec_virtual_sensor_t where
  | BSEC_OUTPUT_IAQ
  | BSEC_OUTPUT_STATIC_IAQ
  | BSEC_OUTPUT_CO2_EQUIVALENT
  | BSEC_OUTPUT_BREATH_VOC_EQUIVALENT
  | BSEC_OUTPUT_SENSOR_HEAT_COMPENSATED_TEMPERATURE
  | BSEC_OUTPUT_RAW_PRESSURE
  | BSEC_OUTPUT_SENSOR_HEAT_COMPENSATED_HUMIDITY
  | BSEC_OUTPUT_RAW_GAS
  | BSEC_OUTPUT_RAW_TEMPERATURE
  | BSEC_OUTPUT_RAW_HUMIDITY
  | BSEC_OUTPUT_COMPENSATED_GAS
  | BSEC_OUTPUT_GAS_PERCENTAGE
  | other (raw : Nat)
  deriving DecidableEq, Repr

/-- One input signal handed to the engine (`bsec_input_t`). -/
structure bsec_input_t (F : Type) where
  sensor_id : bsec_physical_sensor_t
  signal : F
  time_stamp : Int
  deriving DecidableEq, Repr

/-- One output signal produced by the engine (`bsec_output_t`). -/
structure bsec_output_t (F : Type) where
  sensor_id : bsec_virtual_sensor_t
  signal : F
  accuracy : Nat
  time_stamp : Int
  deriving DecidableEq, Repr

/-- One requested virtual sensor (`bsec_sensor_configuration_t`). -/
structure bsec_sensor_configuration_t (F : Type) where
  sensor_id : bsec_virtual_sensor_t
  sample_rate : F
  deriving DecidableEq, Repr

/-- Per-cycle settings computed by the engine (`bsec_bme_settings_t`).
`process_data` is the 32-bit pattern of the mask; `trigger_measurement` and
`run_gas` are C truth values (non-zero means true). -/
structure bsec_bme_settings_t where
  next_call : Int
  process_data : Nat
  heater_temperature : Nat
  heater_duration : Nat
  run_gas : Nat
  pressure_oversampling : Nat
  temperature_oversampling : Nat
  humidity_oversampling : Nat
  trigger_measurement : Nat
  deriving DecidableEq, Repr

/-- The fields of `struct bme68x_conf` that the module writes. -/
structure bme68x_conf where
  os_hum : Nat
  os_pres : Nat
  os_temp : Nat
  deriving DecidableEq, Repr

/-- The fields of `struct bme68x_heatr_conf` that the module writes. -/
structure bme68x_heatr_conf where
  enable : Nat
  heatr_temp : Nat
  heatr_dur : Nat
  deriving DecidableEq, Repr

/-- The fields of `struct bme68x_data` that the module reads; `R` is the type of
the raw readings. -/
structure bme68x_data (R : Type) where
  status : Nat
  pressure : R
  temperature : R
  humidity : R
  gas_resistance : R
  deriving DecidableEq, Repr

/-- The fields of the global `struct bme68x_dev bme68x` that the module touches.
Function pointers and the interface pointer are represented by their address;
everything the driver keeps privately in the handle is part of the environment
state. -/
structure bme68x_dev where
  variant_id : Nat
  intf : Nat
  write : Nat
  read : Nat
  delay_us : Nat
  intf_ptr : Nat
  deriving DecidableEq, Repr

/-- Result of initialisation (`return_values_init`). -/
structure return_values_init where
  bme68x_status : Int
  bsec_status : Int
  deriving DecidableEq, Repr

/-- The twenty arguments of the `output_ready` callback, in call order. -/
structure output_ready_args (F : Type) where
  timestamp : Int
  iaq : F
  iaq_accuracy : Nat
  temp : F
  raw_temp : F
  raw_pressure : F
  humidity : F
  raw_humidity : F
  raw_gas : F
  static_iaq : F
  static_iaq_accuracy : Nat
  co2_equivalent : F
  co2_accuracy : Nat
  breath_voc_equivalent : F
  breath_voc_accuracy : Nat
  comp_gas_value : F
  comp_gas_accuracy : Nat
  gas_percentage : F
  gas_percentage_acccuracy : Nat
  bsec_status : Int
  deriving DecidableEq, Repr

/-- Constants of the vendor headers used by the module. -/
structure Consts where
  BME68X_OK : Int
  BSEC_OK : Int
  BME68X_I2C_ADDR_LOW : Nat
  BME68X_I2C_INTF : Nat
  BME68X_FORCED_MODE : Nat
  BME68X_NEW_DATA_MSK : Nat
  BME68X_GASM_VALID_MSK : Nat
  BSEC_PROCESS_PRESSURE : Nat
  BSEC_PROCESS_TEMPERATURE : Nat
  BSEC_PROCESS_HUMIDITY : Nat
  BSEC_PROCESS_GAS : Nat
  BSEC_NUMBER_OUTPUTS : Nat
  BSEC_MAX_PHYSICAL_SENSOR : Nat
  BSEC_MAX_STATE_BLOB_SIZE : Nat
  BSEC_MAX_PROPERTY_BLOB_SIZE : Nat
  BSEC_MAX_WORKBUFFER_SIZE : Nat

/-- The values these constants have in the vendor headers (`bme68x_defs.h`,
`bsec_datatypes.h`). -/
def vendorConsts : Consts where
  BME68X_OK := 0
  BSEC_OK := 0
  BME68X_I2C_ADDR_LOW := 0x76
  BME68X_I2C_INTF := 1
  BME68X_FORCED_MODE := 1
  BME68X_NEW_DATA_MSK := 0x80
  BME68X_GASM_VALID_MSK := 0x20
  BSEC_PROCESS_PRESSURE := 1
  BSEC_PROCESS_TEMPERATURE := 4
  BSEC_PROCESS_HUMIDITY := 2
  BSEC_PROCESS_GAS := 8
  BSEC_NUMBER_OUTPUTS := 14
  BSEC_MAX_PHYSICAL_SENSOR := 8
  BSEC_MAX_STATE_BLOB_SIZE := 139
  BSEC_MAX_PROPERTY_BLOB_SIZE := 454
  BSEC_MAX_WORKBUFFER_SIZE := 2048

/-- `NUM_USED_OUTPUTS` (local macro of the module). -/
def NUM_USED_OUTPUTS : Nat := 10

/-- Conversion of a raw reading to the `float` signal stored in an input:
the plain conversion for pressure and gas resistance, and for temperature and
humidity either the plain value (`BME68X_USE_FPU`) or the value divided by
`100.0f`, respectively `1000.0f`. -/
structure SignalConv (R F : Type) where
  pressure : R → F
  temperature : R → F
  humidity : R → F
  gas_resistance : R → F

/-! ## Calls, environment and module state -/

/-- One call made by the module to a collaborator, with the arguments passed by
value.  A trace is a list of calls in program order. -/
inductive Call (F : Type) where
  | bme68x_init (dev : bme68x_dev)
  | bme68x_set_conf (conf : bme68x_conf)
  | bme68x_set_heatr_conf (op_mode : Nat) (conf : bme68x_heatr_conf)
  | bme68x_set_op_mode (op_mode : Nat)
  | bme68x_get_meas_dur (op_mode : Nat) (conf : bme68x_conf)
  | bme68x_get_op_mode
  | bme68x_get_data (op_mode : Nat)
  | bsec_init
  | bsec_set_configuration (blob : List Nat) (n_blob : Int) (n_work : Nat)
  | bsec_set_state (blob : List Nat) (n_blob : Int) (n_work : Nat)
  | bsec_update_subscription (requested : List (bsec_sensor_configuration_t F)) (n_required : Nat)
  | bsec_sensor_control (time_stamp : Int)
  | bsec_do_steps (inputs : List (bsec_input_t F)) (n_outputs : Nat)
  | bsec_get_state (set_id n_buffer n_work : Nat)
  | config_load (n_buffer : Nat)
  | state_load (n_buffer : Nat)
  | sleep (t_us : Nat) (intf_ptr : Nat)
  | get_timestamp_us
  | output_ready (args : output_ready_args F)
  | state_save (blob : List Nat) (length : Nat)
  deriving DecidableEq, Repr

/-- The collaborators of the module as oracles on an environment state `σ`.
Each oracle returns the C return value, the content of its out-parameters after
the call, and the next environment state. -/
structure Env (σ R F : Type) where
  bme68x_init : bme68x_dev → σ → Int × σ
  bme68x_set_conf : bme68x_conf → bme68x_dev → σ → Int × σ
  bme68x_set_heatr_conf : Nat → bme68x_heatr_conf → bme68x_dev → σ → Int × σ
  bme68x_set_op_mode : Nat → bme68x_dev → σ → Int × σ
  /-- Returns the measurement duration. -/
  bme68x_get_meas_dur : Nat → bme68x_conf → bme68x_dev → σ → Nat × σ
  /-- Returns the status and the operation mode written to the out-parameter. -/
  bme68x_get_op_mode : bme68x_dev → σ → (Int × Nat) × σ
  /-- Returns the status, the content of the sample and the number of fields. -/
  bme68x_get_data : Nat → bme68x_dev → σ → (Int × bme68x_data R × Nat) × σ
  bsec_init : σ → Int × σ
  bsec_set_configuration : List Nat → Int → Nat → σ → Int × σ
  bsec_set_state : List Nat → Int → Nat → σ → Int × σ
  bsec_update_subscription : List (bsec_sensor_configuration_t F) → Nat → σ → Int × σ
  /-- Returns the status and the settings written to the out-parameter. -/
  bsec_sensor_control : Int → σ → (Int × bsec_bme_settings_t) × σ
  /-- Returns the status and the outputs written to the buffer (as many as the
  updated output count says). -/
  bsec_do_steps : List (bsec_input_t F) → Nat → σ → (Int × List (bsec_output_t F)) × σ
  /-- Returns the status, the content of the state buffer and the actual length. -/
  bsec_get_state : Nat → Nat → Nat → σ → (Int × List Nat × Nat) × σ
  /-- Returns the length and the content of the buffer. -/
  config_load : Nat → σ → (Int × List Nat) × σ
  /-- Returns the length and the content of the buffer. -/
  state_load : Nat → σ → (Int × List Nat) × σ
  sleep : Nat → Nat → σ → σ
  get_timestamp_us : σ → Int × σ
  output_ready : output_ready_args F → σ → σ
  state_save : List Nat → Nat → σ → σ

/-- State of the module and of its surroundings: the environment, the two
file-scope globals, and the trace of calls made so far. -/
structure State (σ F : Type) where
  env : σ
  bme68x : bme68x_dev
  bme68x_temperature_offset_g : F
  trace : List (Call F)

/-- Record a call and move to the environment state it produced. -/
def State.call {σ F : Type} (s : State σ F) (c : Call F) (env1 : σ) : State σ F :=
  { s with env := env1, trace := s.trace ++ [c] }

/-- The calls made between an earlier state `s` and a later state `t`. -/
def callsSince {σ F : Type} (s t : State σ F) : List (Call F) :=
  t.trace.drop s.trace.length

/-- Two's-complement wrap-around of a signed 64-bit result. -/
def wrap64 (x : Int) : Int := (x + 2 ^ 63) % 2 ^ 64 - 2 ^ 63

/-! ## `bme68x_bsec_update_subscription` -/

/-- The subscription request: the ten wanted outputs, all at `sample_rate`, and
room for `BSEC_MAX_PHYSICAL_SENSOR` required settings.  Returns the engine
status. -/
def bme68x_bsec_update_subscription {σ R F : Type} (E : Env σ R F) (K : Consts)
    (sample_rate : F) (s : State σ F) : Int × State σ F :=
  let requested_virtual_sensors : List (bsec_sensor_configuration_t F) :=
    [ ⟨.BSEC_OUTPUT_IAQ, sample_rate⟩,
      ⟨.BSEC_OUTPUT_STATIC_IAQ, sample_rate⟩,
      ⟨.BSEC_OUTPUT_SENSOR_HEAT_COMPENSATED_TEMPERATURE, sample_rate⟩,
      ⟨.BSEC_OUTPUT_SENSOR_HEAT_COMPENSATED_HUMIDITY, sample_rate⟩,
      ⟨.BSEC_OUTPUT_RAW_PRESSURE, sample_rate⟩,
      ⟨.BSEC_OUTPUT_BREATH_VOC_EQUIVALENT, sample_rate⟩,
      ⟨.BSEC_OUTPUT_CO2_EQUIVALENT, sample_rate⟩,
      ⟨.BSEC_OUTPUT_COMPENSATED_GAS, sample_rate⟩,
      ⟨.BSEC_OUTPUT_RAW_GAS, sample_rate⟩,
      ⟨.BSEC_OUTPUT_GAS_PERCENTAGE, sample_rate⟩ ]
  let r := E.bsec_update_subscription requested_virtual_sensors K.BSEC_MAX_PHYSICAL_SENSOR s.env
  (r.1, s.call (.bsec_update_subscription requested_virtual_sensors K.BSEC_MAX_PHYSICAL_SENSOR) r.2)

/-! ## `bsec_iot_init` -/

/-- Last part of `bsec_iot_init` (from "Set temperature offset" on), entered
with the current value of `ret`: store the offset, then subscribe. -/
def bsec_iot_init_subscribe {σ R F : Type} (E : Env σ R F) (K : Consts)
    (sample_rate temperature_offset : F) (ret : return_values_init) (s : State σ F) :
    return_values_init × State σ F :=
  let s1 : State σ F := { s with bme68x_temperature_offset_g := temperature_offset }
  let r := bme68x_bsec_update_subscription E K sample_rate s1
  let ret := { ret with bsec_status := r.1 }
  if ret.bsec_status ≠ K.BSEC_OK then (ret, r.2) else (ret, r.2)

/-- Part of `bsec_iot_init` from "Load previous library state" on. -/
def bsec_iot_init_state {σ R F : Type} (E : Env σ R F) (K : Consts)
    (sample_rate temperature_offset : F) (ret : return_values_init) (s : State σ F) :
    return_values_init × State σ F :=
  let l := E.state_load K.BSEC_MAX_STATE_BLOB_SIZE s.env
  let s1 := s.call (.state_load K.BSEC_MAX_STATE_BLOB_SIZE) l.2
  let bsec_state := l.1.2
  let bsec_state_len := l.1.1
  if bsec_state_len ≠ 0 then
    let r := E.bsec_set_state bsec_state bsec_state_len K.BSEC_MAX_WORKBUFFER_SIZE s1.env
    let s2 := s1.call (.bsec_set_state bsec_state bsec_state_len K.BSEC_MAX_WORKBUFFER_SIZE) r.2
    let ret := { ret with bsec_status := r.1 }
    if ret.bsec_status ≠ K.BSEC_OK then (ret, s2)
    else bsec_iot_init_subscribe E K sample_rate temperature_offset ret s2
  else bsec_iot_init_subscribe E K sample_rate temperature_offset ret s1

/-- Part of `bsec_iot_init` from "Load library config" on. -/
def bsec_iot_init_config {σ R F : Type} (E : Env σ R F) (K : Consts)
    (sample_rate temperature_offset : F) (ret : return_values_init) (s : State σ F) :
    return_values_init × State σ F :=
  let l := E.config_load K.BSEC_MAX_PROPERTY_BLOB_SIZE s.env
  let s1 := s.call (.config_load K.BSEC_MAX_PROPERTY_BLOB_SIZE) l.2
  let bsec_config := l.1.2
  let bsec_config_len := l.1.1
  if bsec_config_len ≠ 0 then
    let r := E.bsec_set_configuration bsec_config bsec_config_len K.BSEC_MAX_WORKBUFFER_SIZE s1.env
    let s2 :=
      s1.call (.bsec_set_configuration bsec_config bsec_config_len K.BSEC_MAX_WORKBUFFER_SIZE) r.2
    let ret := { ret with bsec_status := r.1 }
    if ret.bsec_status ≠ K.BSEC_OK then (ret, s2)
    else bsec_iot_init_state E K sample_rate temperature_offset ret s2
  else bsec_iot_init_state E K sample_rate temperature_offset ret s1

/-- Initialisation of the driver and of the engine.  `bus_write`, `bus_read`
and `sleep` are the addresses of the callbacks stored in the device handle;
`state_load` and `config_load` are the oracles of `E`.  The function is cut at
its two optional blocks: the text after each block is the definition above. -/
def bsec_iot_init {σ R F : Type} (E : Env σ R F) (K : Consts) (sample_rate temperature_offset : F)
    (bus_write bus_read sleep : Nat) (s : State σ F) : return_values_init × State σ F :=
  let ret : return_values_init := ⟨K.BME68X_OK, K.BSEC_OK⟩
  let dev : bme68x_dev :=
    { s.bme68x with
      variant_id := K.BME68X_I2C_ADDR_LOW, intf := K.BME68X_I2C_INTF,
      write := bus_write, read := bus_read, delay_us := sleep }
  let s0 : State σ F := { s with bme68x := dev }
  let r1 := E.bme68x_init s0.bme68x s0.env
  let s1 := s0.call (.bme68x_init s0.bme68x) r1.2
  let ret := { ret with bme68x_status := r1.1 }
  if ret.bme68x_status ≠ K.BME68X_OK then (ret, s1) else
  let r2 := E.bsec_init s1.env
  let s2 := s1.call .bsec_init r2.2
  let ret := { ret with bsec_status := r2.1 }
  if ret.bsec_status ≠ K.BSEC_OK then (ret, s2) else
  bsec_iot_init_config E K sample_rate temperature_offset ret s2

/-! ## `bme68x_bsec_trigger_measurement` -/

/-- The polling loop `while (opmode == BME68X_FORCED_MODE)`, entered with the
mode reported by the previous poll.  `fuel` bounds the number of iterations; the
result is `none` when the loop has not ended within `fuel` iterations. -/
def poll_op_mode {σ R F : Type} (E : Env σ R F) (K : Consts) :
    Nat → Nat → State σ F → Option (State σ F)
  | 0, opmode, s => if opmode = K.BME68X_FORCED_MODE then none else some s
  | fuel + 1, opmode, s =>
    if opmode = K.BME68X_FORCED_MODE then
      let s1 := s.call (.sleep 5000 s.bme68x.intf_ptr) (E.sleep 5000 s.bme68x.intf_ptr s.env)
      let r := E.bme68x_get_op_mode s1.bme68x s1.env
      poll_op_mode E K fuel r.1.2 (s1.call .bme68x_get_op_mode r.2)
    else some s

/-- Trigger a forced-mode measurement if the settings ask for one, then poll the
operation mode until the sensor has left forced mode.  The measurement duration
is stored in a `uint16_t` and widened to `uint32_t` for the sleep. -/
def bme68x_bsec_trigger_measurement {σ R F : Type} (E : Env σ R F) (K : Consts) (fuel : Nat)
    (sensor_settings : bsec_bme_settings_t) (s : State σ F) : Option (State σ F) :=
  let bme68x_sensor_settings : bme68x_conf :=
    { os_hum := sensor_settings.humidity_oversampling,
      os_pres := sensor_settings.pressure_oversampling,
      os_temp := sensor_settings.temperature_oversampling }
  let bme68x_heater_settings : bme68x_heatr_conf :=
    { enable := sensor_settings.run_gas,
      heatr_temp := sensor_settings.heater_temperature,
      heatr_dur := sensor_settings.heater_duration }
  let s5 : State σ F :=
    if sensor_settings.trigger_measurement ≠ 0 then
      let r1 := E.bme68x_set_conf bme68x_sensor_settings s.bme68x s.env
      let s1 := s.call (.bme68x_set_conf bme68x_sensor_settings) r1.2
      let r2 := E.bme68x_set_heatr_conf K.BME68X_FORCED_MODE bme68x_heater_settings s1.bme68x s1.env
      let s2 := s1.call (.bme68x_set_heatr_conf K.BME68X_FORCED_MODE bme68x_heater_settings) r2.2
      let r3 := E.bme68x_set_op_mode K.BME68X_FORCED_MODE s2.bme68x s2.env
      let s3 := s2.call (.bme68x_set_op_mode K.BME68X_FORCED_MODE) r3.2
      let r4 := E.bme68x_get_meas_dur K.BME68X_FORCED_MODE bme68x_sensor_settings s3.bme68x s3.env
      let s4 := s3.call (.bme68x_get_meas_dur K.BME68X_FORCED_MODE bme68x_sensor_settings) r4.2
      let meas_period : Nat := r4.1 % 2 ^ 16
      s4.call (.sleep (meas_period % 2 ^ 32) s4.bme68x.intf_ptr)
        (E.sleep (meas_period % 2 ^ 32) s4.bme68x.intf_ptr s4.env)
    else s
  let r := E.bme68x_get_op_mode s5.bme68x s5.env
  poll_op_mode E K fuel r.1.2 (s5.call .bme68x_get_op_mode r.2)

/-! ## `bme68x_bsec_read_data` -/

/-- The input assembler.  `inputs` is the filled part of the input array (its
length is `*num_bsec_inputs`); the result is the filled part after the call.
The sample `data` is a static local written by `bme68x_get_data`: the oracle
returns its content after the call (the old content where the driver wrote
nothing). -/
def bme68x_bsec_read_data {σ R F : Type} (E : Env σ R F) (K : Consts) (cv : SignalConv R F)
    (time_stamp_trigger : Int) (inputs : List (bsec_input_t F)) (bsec_process_data : Nat)
    (s : State σ F) : List (bsec_input_t F) × State σ F :=
  if bsec_process_data ≠ 0 then
    let r := E.bme68x_get_data K.BME68X_FORCED_MODE s.bme68x s.env
    let s1 := s.call (.bme68x_get_data K.BME68X_FORCED_MODE) r.2
    let data := r.1.2.1
    if data.status &&& K.BME68X_NEW_DATA_MSK ≠ 0 then
      let inputs :=
        if bsec_process_data &&& K.BSEC_PROCESS_PRESSURE ≠ 0 then
          inputs ++ [⟨.BSEC_INPUT_PRESSURE, cv.pressure data.pressure, time_stamp_trigger⟩]
        else inputs
      let inputs :=
        if bsec_process_data &&& K.BSEC_PROCESS_TEMPERATURE ≠ 0 then
          inputs ++ [⟨.BSEC_INPUT_TEMPERATURE, cv.temperature data.temperature, time_stamp_trigger⟩,
                     ⟨.BSEC_INPUT_HEATSOURCE, s1.bme68x_temperature_offset_g, time_stamp_trigger⟩]
        else inputs
      let inputs :=
        if bsec_process_data &&& K.BSEC_PROCESS_HUMIDITY ≠ 0 then
          inputs ++ [⟨.BSEC_INPUT_HUMIDITY, cv.humidity data.humidity, time_stamp_trigger⟩]
        else inputs
      let inputs :=
        if bsec_process_data &&& K.BSEC_PROCESS_GAS ≠ 0 then
          if data.status &&& K.BME68X_GASM_VALID_MSK ≠ 0 then
            inputs ++ [⟨.BSEC_INPUT_GASRESISTOR, cv.gas_resistance data.gas_resistance,
                        time_stamp_trigger⟩]
          else inputs
        else inputs
      (inputs, s1)
    else (inputs, s1)
  else (inputs, s)

/-! ## `bme68x_bsec_process_data` -/

/-- One pass through the body of the demultiplexing `for` loop: the `switch` on
the identifier followed by the timestamp assignment, which the `default` branch
skips with `continue`.  `acc` holds the local variables. -/
def demux_step {F : Type} (acc : output_ready_args F) (o : bsec_output_t F) :
    output_ready_args F :=
  match o.sensor_id with
  | .BSEC_OUTPUT_IAQ =>
    { acc with iaq := o.signal, iaq_accuracy := o.accuracy, timestamp := o.time_stamp }
  | .BSEC_OUTPUT_STATIC_IAQ =>
    { acc with static_iaq := o.signal, static_iaq_accuracy := o.accuracy,
               timestamp := o.time_stamp }
  | .BSEC_OUTPUT_CO2_EQUIVALENT =>
    { acc with co2_equivalent := o.signal, co2_accuracy := o.accuracy,
               timestamp := o.time_stamp }
  | .BSEC_OUTPUT_BREATH_VOC_EQUIVALENT =>
    { acc with breath_voc_equivalent := o.signal, breath_voc_accuracy := o.accuracy,
               timestamp := o.time_stamp }
  | .BSEC_OUTPUT_SENSOR_HEAT_COMPENSATED_TEMPERATURE =>
    { acc with temp := o.signal, timestamp := o.time_stamp }
  | .BSEC_OUTPUT_RAW_PRESSURE =>
    { acc with raw_pressure := o.signal, timestamp := o.time_stamp }
  | .BSEC_OUTPUT_SENSOR_HEAT_COMPENSATED_HUMIDITY =>
    { acc with humidity := o.signal, timestamp := o.time_stamp }
  | .BSEC_OUTPUT_RAW_GAS =>
    { acc with raw_gas := o.signal, timestamp := o.time_stamp }
  | .BSEC_OUTPUT_RAW_TEMPERATURE =>
    { acc with raw_temp := o.signal, timestamp := o.time_stamp }
  | .BSEC_OUTPUT_RAW_HUMIDITY =>
    { acc with raw_humidity := o.signal, timestamp := o.time_stamp }
  | .BSEC_OUTPUT_COMPENSATED_GAS =>
    { acc with comp_gas_value := o.signal, comp_gas_accuracy := o.accuracy,
               timestamp := o.time_stamp }
  | .BSEC_OUTPUT_GAS_PERCENTAGE =>
    { acc with gas_percentage := o.signal, gas_percentage_acccuracy := o.accuracy,
               timestamp := o.time_stamp }
  | .other _ => acc

/-- The local variables of `bme68x_bsec_process_data` after their
initialisation. -/
def process_data_locals {F : Type} [Zero F] (K : Consts) : output_ready_args F where
  timestamp := 0
  iaq := 0
  iaq_accuracy := 0
  temp := 0
  raw_temp := 0
  raw_pressure := 0
  humidity := 0
  raw_humidity := 0
  raw_gas := 0
  static_iaq := 0
  static_iaq_accuracy := 0
  co2_equivalent := 0
  co2_accuracy := 0
  breath_voc_equivalent := 0
  breath_voc_accuracy := 0
  comp_gas_value := 0
  comp_gas_accuracy := 0
  gas_percentage := 0
  gas_percentage_acccuracy := 0
  bsec_status := K.BSEC_OK

/-- The output demultiplexer.  `bsec_inputs` is the filled part of the input
array, so `num_bsec_inputs` is its length. -/
def bme68x_bsec_process_data {σ R F : Type} [Zero F] (E : Env σ R F) (K : Consts)
    (bsec_inputs : List (bsec_input_t F)) (s : State σ F) : State σ F :=
  if bsec_inputs.length > 0 then
    let r := E.bsec_do_steps bsec_inputs K.BSEC_NUMBER_OUTPUTS s.env
    let s1 := s.call (.bsec_do_steps bsec_inputs K.BSEC_NUMBER_OUTPUTS) r.2
    let locals : output_ready_args F := { process_data_locals K with bsec_status := r.1.1 }
    let locals := r.1.2.foldl demux_step locals
    s1.call (.output_ready locals) (E.output_ready locals s1.env)
  else s

/-! ## `bsec_iot_loop` -/

/-- What the loop keeps from one iteration to the next: the module state and the
sample counter `n_samples`. -/
structure LoopState (σ F : Type) where
  w : State σ F
  n_samples : Nat

/-- The state-persistence block of the loop body ("Increment sample counter"
and "Retrieve and store state"), entered with the counter `n_samples`; returns
the state and the counter after the block.  The counter is a `uint32_t`. -/
def bsec_iot_loop_save {σ R F : Type} (E : Env σ R F) (K : Consts) (save_intvl : Nat)
    (n_samples : Nat) (s : State σ F) : State σ F × Nat :=
  let n_samples := (n_samples + 1) % 2 ^ 32
  if n_samples ≥ save_intvl then
    let g := E.bsec_get_state 0 K.BSEC_MAX_STATE_BLOB_SIZE K.BSEC_MAX_WORKBUFFER_SIZE s.env
    let s1 := s.call (.bsec_get_state 0 K.BSEC_MAX_STATE_BLOB_SIZE K.BSEC_MAX_WORKBUFFER_SIZE) g.2
    let s2 :=
      if g.1.1 = K.BSEC_OK then
        s1.call (.state_save g.1.2.1 g.1.2.2) (E.state_save g.1.2.1 g.1.2.2 s1.env)
      else s1
    (s2, 0)
  else (s, n_samples)

/-- The value of `time_stamp_interval_us` computed at the end of a cycle from
`sensor_settings.next_call` and the clock reading `now_us`: signed 64-bit
arithmetic, with C division (truncation towards zero). -/
def time_stamp_interval_us (next_call now_us : Int) : Int :=
  Int.tdiv (wrap64 (next_call - wrap64 (now_us * 1000))) 1000

/-- The end-of-cycle block of the loop body ("Compute how long we can sleep"):
read the clock, compute the remaining time and sleep if it is positive.  The
sleep duration is the interval converted to `uint32_t`. -/
def bsec_iot_loop_sleep {σ R F : Type} (E : Env σ R F) (next_call : Int) (s : State σ F) :
    State σ F :=
  let t := E.get_timestamp_us s.env
  let s1 := s.call .get_timestamp_us t.2
  if time_stamp_interval_us next_call t.1 > 0 then
    s1.call (.sleep (time_stamp_interval_us next_call t.1 % 2 ^ 32).toNat s1.bme68x.intf_ptr)
      (E.sleep (time_stamp_interval_us next_call t.1 % 2 ^ 32).toNat s1.bme68x.intf_ptr s1.env)
  else s1

/-- One iteration of the body of `while (1)`.  `fuel` bounds the polling loop of
the acquisition trigger; the result is `none` when that loop has not ended.  The
last two blocks of the body are the two definitions above. -/
def bsec_iot_loop_body {σ R F : Type} [Zero F] (E : Env σ R F) (K : Consts) (cv : SignalConv R F)
    (fuel : Nat) (save_intvl : Nat) (L : LoopState σ F) : Option (LoopState σ F) :=
  let t0 := E.get_timestamp_us L.w.env
  let s0 := L.w.call .get_timestamp_us t0.2
  let time_stamp : Int := wrap64 (t0.1 * 1000)
  let c := E.bsec_sensor_control time_stamp s0.env
  let s1 := s0.call (.bsec_sensor_control time_stamp) c.2
  let sensor_settings := c.1.2
  match bme68x_bsec_trigger_measurement E K fuel sensor_settings s1 with
  | none => none
  | some s2 =>
    let rd := bme68x_bsec_read_data E K cv time_stamp [] sensor_settings.process_data s2
    let s3 := bme68x_bsec_process_data E K rd.1 rd.2
    let sv := bsec_iot_loop_save E K save_intvl L.n_samples s3
    let s4 := bsec_iot_loop_sleep E sensor_settings.next_call sv.1
    some { w := s4, n_samples := sv.2 }

/-- The state after the first `n` iterations of the endless loop, started with
the given loop state (`n_samples = 0` at the entry of `bsec_iot_loop`). -/
def bsec_iot_loop {σ R F : Type} [Zero F] (E : Env σ R F) (K : Consts) (cv : SignalConv R F)
    (fuel : Nat) (save_intvl : Nat) : Nat → LoopState σ F → Option (LoopState σ F)
  | 0, L => some L
  | n + 1, L =>
    match bsec_iot_loop_body E K cv fuel save_intvl L with
    | none => none
    | some L1 => bsec_iot_loop E K cv fuel save_intvl n L1

/-! ## Observations on traces -/

/-- Calls of the `output_ready` callback. -/
def Call.is_output_ready {F : Type} : Call F → Bool
  | .output_ready _ => true
  | _ => false

/-- Calls of the `state_save` callback. -/
def Call.is_state_save {F : Type} : Call F → Bool
  | .state_save _ _ => true
  | _ => false

/-- Calls of `bsec_get_state`. -/
def Call.is_get_state {F : Type} : Call F → Bool
  | .bsec_get_state _ _ _ => true
  | _ => false

/-- Calls of the `sleep` callback. -/
def Call.is_sleep {F : Type} : Call F → Bool
  | .sleep _ _ => true
  | _ => false

/-- Calls of `bsec_update_subscription`. -/
def Call.is_update_subscription {F : Type} : Call F → Bool
  | .bsec_update_subscription _ _ => true
  | _ => false

/-- Calls into the sensor driver. -/
def Call.is_driver_call {F : Type} : Call F → Bool
  | .bme68x_init _ => true
  | .bme68x_set_conf _ => true
  | .bme68x_set_heatr_conf _ _ => true
  | .bme68x_set_op_mode _ => true
  | .bme68x_get_meas_dur _ _ => true
  | .bme68x_get_op_mode => true
  | .bme68x_get_data _ => true
  | _ => false

/-- The timestamp arguments of the `output_ready` calls of a trace, in order. -/
def output_ready_timestamps {F : Type} (l : List (Call F)) : List Int :=
  l.filterMap fun c =>
    match c with
    | .output_ready args => some args.timestamp
    | _ => none

/-- The identifiers that have a case label in the demultiplexer switch. -/
def is_recognised_output : bsec_virtual_sensor_t → Bool
  | .other _ => false
  | _ => true

/-- Between state `s` and the later state `t` no persistence call
(`bsec_get_state`, `state_save`) was made. -/
def quiet_since {σ F : Type} (s t : State σ F) : Prop :=
  ∃ l : List (Call F), t.trace = s.trace ++ l ∧
    ∀ c ∈ l, c.is_state_save = false ∧ c.is_get_state = false

/-- What is left of a failed initialisation that started in state `s` and ended
with `out`: either the subscription was not called and the stored offset is the
one of `s`, or the subscription was called and failed and the stored offset is
`temperature_offset`. -/
def init_failure_outcome {σ F : Type} (K : Consts) (temperature_offset : F) (s : State σ F)
    (out : return_values_init × State σ F) : Prop :=
  ((callsSince s out.2).any Call.is_update_subscription = false ∧
    out.2.bme68x_temperature_offset_g = s.bme68x_temperature_offset_g) ∨
  ((callsSince s out.2).any Call.is_update_subscription = true ∧
    out.1.bme68x_status = K.BME68X_OK ∧ out.1.bsec_status ≠ K.BSEC_OK ∧
    out.2.bme68x_temperature_offset_g = temperature_offset)

/-- Specification side of the polling of the operation mode: the environment
left by poll number `k`, where poll 0 is made in the environment `e` and every
later poll is made after a 5000 microsecond sleep. -/
def env_after_poll {σ R F : Type} (E : Env σ R F) (dev : bme68x_dev) : Nat → σ → σ
  | 0, e => (E.bme68x_get_op_mode dev e).2
  | k + 1, e =>
    (E.bme68x_get_op_mode dev (E.sleep 5000 dev.intf_ptr (env_after_poll E dev k e))).2

/-- Specification side of the polling of the operation mode: the mode reported
by poll number `k` (see `env_after_poll`). -/
def polled_mode {σ R F : Type} (E : Env σ R F) (dev : bme68x_dev) : Nat → σ → Nat
  | 0, e => (E.bme68x_get_op_mode dev e).1.2
  | k + 1, e =>
    (E.bme68x_get_op_mode dev (E.sleep 5000 dev.intf_ptr (env_after_poll E dev k e))).1.2

/-- The calls of `n` rounds of the polling loop: a 5000 microsecond sleep followed
by a poll, `n` times. -/
def poll_rounds {F : Type} (intf_ptr : Nat) : Nat → List (Call F)
  | 0 => []
  | n + 1 => .sleep 5000 intf_ptr :: .bme68x_get_op_mode :: poll_rounds intf_ptr n

/-- Specification side of the acquisition trigger: the state in which the first
poll of the operation mode is made, that is the state after the `if` block of
`bme68x_bsec_trigger_measurement` (unchanged when no measurement is triggered). -/
def trigger_setup {σ R F : Type} (E : Env σ R F) (K : Consts)
    (sensor_settings : bsec_bme_settings_t) (s : State σ F) : State σ F :=
  let bme68x_sensor_settings : bme68x_conf :=
    { os_hum := sensor_settings.humidity_oversampling,
      os_pres := sensor_settings.pressure_oversampling,
      os_temp := sensor_settings.temperature_oversampling }
  let bme68x_heater_settings : bme68x_heatr_conf :=
    { enable := sensor_settings.run_gas,
      heatr_temp := sensor_settings.heater_temperature,
      heatr_dur := sensor_settings.heater_duration }
  if sensor_settings.trigger_measurement ≠ 0 then
    let r1 := E.bme68x_set_conf bme68x_sensor_settings s.bme68x s.env
    let s1 := s.call (.bme68x_set_conf bme68x_sensor_settings) r1.2
    let r2 := E.bme68x_set_heatr_conf K.BME68X_FORCED_MODE bme68x_heater_settings s1.bme68x s1.env
    let s2 := s1.call (.bme68x_set_heatr_conf K.BME68X_FORCED_MODE bme68x_heater_settings) r2.2
    let r3 := E.bme68x_set_op_mode K.BME68X_FORCED_MODE s2.bme68x s2.env
    let s3 := s2.call (.bme68x_set_op_mode K.BME68X_FORCED_MODE) r3.2
    let r4 := E.bme68x_get_meas_dur K.BME68X_FORCED_MODE bme68x_sensor_settings s3.bme68x s3.env
    let s4 := s3.call (.bme68x_get_meas_dur K.BME68X_FORCED_MODE bme68x_sensor_settings) r4.2
    let meas_period : Nat := r4.1 % 2 ^ 16
    s4.call (.sleep (meas_period % 2 ^ 32) s4.bme68x.intf_ptr)
      (E.sleep (meas_period % 2 ^ 32) s4.bme68x.intf_ptr s4.env)
  else s

/-- Specification side of one loop iteration: the settings the engine returns for
the iteration that starts in `L`, and the state in which the acquisition trigger
is then called. -/
def loop_trigger_start {σ R F : Type} (E : Env σ R F) (L : LoopState σ F) :
    bsec_bme_settings_t × State σ F :=
  let t0 := E.get_timestamp_us L.w.env
  let s0 := L.w.call .get_timestamp_us t0.2
  let time_stamp : Int := wrap64 (t0.1 * 1000)
  let c := E.bsec_sensor_control time_stamp s0.env
  (c.1.2, s0.call (.bsec_sensor_control time_stamp) c.2)

/-- Specification side of one loop iteration: the environment in which the first
poll of the operation mode is made in the iteration that starts in `L`. -/
def loop_first_poll_env {σ R F : Type} (E : Env σ R F) (K : Consts) (L : LoopState σ F) : σ :=
  (trigger_setup E K (loop_trigger_start E L).1 (loop_trigger_start E L).2).env

/-- Specification side of one loop iteration: the state in which the persistence
block is entered in the iteration that starts in `L` (after trigger, input
assembly and demultiplexing); `none` when the polling loop has not ended. -/
def state_before_save {σ R F : Type} [Zero F] (E : Env σ R F) (K : Consts)
    (cv : SignalConv R F) (fuel : Nat) (L : LoopState σ F) : Option (State σ F) :=
  let time_stamp : Int := wrap64 ((E.get_timestamp_us L.w.env).1 * 1000)
  match bme68x_bsec_trigger_measurement E K fuel (loop_trigger_start E L).1
      (loop_trigger_start E L).2 with
  | none => none
  | some s2 =>
    let rd := bme68x_bsec_read_data E K cv time_stamp [] (loop_trigger_start E L).1.process_data s2
    some (bme68x_bsec_process_data E K rd.1 rd.2)

/-- Specification side of the demultiplexer: the last output of a batch that
carries the identifier `id`, if any. -/
def last_output_with {F : Type} (id : bsec_virtual_sensor_t) (outs : List (bsec_output_t F)) :
    Option (bsec_output_t F) :=
  (outs.filter fun o => o.sensor_id = id).getLast?

/-- Specification side of the demultiplexer: the signal of the last output that
carries `id`, or zero when no output carries it. -/
def last_signal {F : Type} [Zero F] (id : bsec_virtual_sensor_t)
    (outs : List (bsec_output_t F)) : F :=
  match last_output_with id outs with
  | some o => o.signal
  | none => 0

/-- Specification side of the demultiplexer: the accuracy of the last output that
carries `id` (the same output `last_signal` reads), or zero when no output
carries it. -/
def last_accuracy {F : Type} (id : bsec_virtual_sensor_t) (outs : List (bsec_output_t F)) :
    Nat :=
  match last_output_with id outs with
  | some o => o.accuracy
  | none => 0

/-- One pressure input, used as a non-empty input batch in evaluations. -/
def simInputs : List (bsec_input_t Int) :=
  [{ sensor_id := .BSEC_INPUT_PRESSURE, signal := 100325, time_stamp := 7000 }]

/-! ## A simulated environment

A small concrete environment used to evaluate the module on explicit inputs.
The sensor stays in forced mode for `busy` polls after a measurement has been
commanded; sleeping advances the clock. -/

/-- Knobs of the simulated collaborators. -/
structure SimCfg where
  init_status : Int
  bsec_init_status : Int
  config_len : Int
  set_configuration_status : Int
  state_len : Int
  set_state_status : Int
  subscription_status : Int
  settings : bsec_bme_settings_t
  meas_dur : Nat
  busy_polls : Nat
  sample : bme68x_data Int
  do_steps_status : Int
  outputs : List (bsec_output_t Int)
  get_state_status : Int

/-- State of the simulated environment: the clock in microseconds and the number
of polls that will still report forced mode. -/
structure SimState where
  clock : Int
  busy : Nat
  deriving DecidableEq, Repr

/-- The simulated collaborators. -/
def simEnv (cfg : SimCfg) : Env SimState Int Int where
  bme68x_init := fun _ e => (cfg.init_status, e)
  bme68x_set_conf := fun _ _ e => (0, e)
  bme68x_set_heatr_conf := fun _ _ _ e => (0, e)
  bme68x_set_op_mode := fun _ _ e => (0, { e with busy := cfg.busy_polls })
  bme68x_get_meas_dur := fun _ _ _ e => (cfg.meas_dur, e)
  bme68x_get_op_mode := fun _ e => ((0, if e.busy = 0 then 0 else 1), { e with busy := e.busy - 1 })
  bme68x_get_data := fun _ _ e => ((0, cfg.sample, 1), e)
  bsec_init := fun e => (cfg.bsec_init_status, e)
  bsec_set_configuration := fun _ _ _ e => (cfg.set_configuration_status, e)
  bsec_set_state := fun _ _ _ e => (cfg.set_state_status, e)
  bsec_update_subscription := fun _ _ e => (cfg.subscription_status, e)
  bsec_sensor_control := fun _ e => ((0, cfg.settings), e)
  bsec_do_steps := fun _ _ e => ((cfg.do_steps_status, cfg.outputs), e)
  bsec_get_state := fun _ _ _ e => ((cfg.get_state_status, [1, 2, 3], 3), e)
  config_load := fun _ e => ((cfg.config_len, []), e)
  state_load := fun _ e => ((cfg.state_len, []), e)
  sleep := fun t _ e => { e with clock := e.clock + t }
  get_timestamp_us := fun e => (e.clock, e)
  output_ready := fun _ e => e
  state_save := fun _ _ e => e

/-- A cycle that triggers a measurement and asks for all four quantities. -/
def simSettings : bsec_bme_settings_t where
  next_call := 3000000000
  process_data := 15
  heater_temperature := 320
  heater_duration := 197
  run_gas := 1
  pressure_oversampling := 5
  temperature_oversampling := 2
  humidity_oversampling := 1
  trigger_measurement := 1

/-- A fresh sample (new-data, gas-valid and heater-stable flags set). -/
def simSample : bme68x_data Int where
  status := 0xB0
  pressure := 100325
  temperature := 2315
  humidity := 45120
  gas_resistance := 120000

/-- Everything succeeds, no stored configuration or state, and the engine
returns no output. -/
def simCfg : SimCfg where
  init_status := 0
  bsec_init_status := 0
  config_len := 0
  set_configuration_status := 0
  state_len := 0
  set_state_status := 0
  subscription_status := 0
  settings := simSettings
  meas_dur := 1000
  busy_polls := 1
  sample := simSample
  do_steps_status := 0
  outputs := []
  get_state_status := 0

/-- A batch of outputs used in evaluations: two IAQ outputs around an output
with an unrecognised identifier, then a raw-pressure output. -/
def simOutputs : List (bsec_output_t Int) :=
  [⟨.BSEC_OUTPUT_IAQ, 50, 3, 1000⟩, ⟨.other 12, 1, 0, 1000⟩, ⟨.BSEC_OUTPUT_IAQ, 75, 2, 1000⟩,
   ⟨.BSEC_OUTPUT_RAW_PRESSURE, 100325, 0, 1000⟩]

/-- Raw readings are passed on unchanged. -/
def simConv : SignalConv Int Int where
  pressure := fun x => x
  temperature := fun x => x
  humidity := fun x => x
  gas_resistance := fun x => x

/-- The module state at program start: globals zero-initialised, empty trace. -/
def simState : State SimState Int where
  env := { clock := 0, busy := 0 }
  bme68x := { variant_id := 0, intf := 0, write := 0, read := 0, delay_us := 0, intf_ptr := 0 }
  bme68x_temperature_offset_g := 0
  trace := []

/-! # Verification -/

/-! ## Input assembler -/

theorem land_ne_zero_left {a b : Nat} (h : a &&& b ≠ 0) : a ≠ 0 := by
  rintro rfl
  simp at h

/-- The sequence after the call: nothing is appended unless the mask is non-zero
and the sample has the new-data flag; otherwise the four optional groups are
appended in the order pressure, temperature with heat source, humidity, gas. -/
theorem read_data_fst {σ R F : Type} (E : Env σ R F) (K : Consts)
    (cv : SignalConv R F) (ts : Int) (inputs : List (bsec_input_t F)) (mask : Nat)
    (s : State σ F) :
    (bme68x_bsec_read_data E K cv ts inputs mask s).1 =
      let data := (E.bme68x_get_data K.BME68X_FORCED_MODE s.bme68x s.env).1.2.1
      if mask ≠ 0 ∧ data.status &&& K.BME68X_NEW_DATA_MSK ≠ 0 then
        inputs
          ++ (if mask &&& K.BSEC_PROCESS_PRESSURE ≠ 0 then
                [⟨.BSEC_INPUT_PRESSURE, cv.pressure data.pressure, ts⟩] else [])
          ++ (if mask &&& K.BSEC_PROCESS_TEMPERATURE ≠ 0 then
                [⟨.BSEC_INPUT_TEMPERATURE, cv.temperature data.temperature, ts⟩,
                 ⟨.BSEC_INPUT_HEATSOURCE, s.bme68x_temperature_offset_g, ts⟩] else [])
          ++ (if mask &&& K.BSEC_PROCESS_HUMIDITY ≠ 0 then
                [⟨.BSEC_INPUT_HUMIDITY, cv.humidity data.humidity, ts⟩] else [])
          ++ (if mask &&& K.BSEC_PROCESS_GAS ≠ 0 ∧ data.status &&& K.BME68X_GASM_VALID_MSK ≠ 0 then
                [⟨.BSEC_INPUT_GASRESISTOR, cv.gas_resistance data.gas_resistance, ts⟩] else [])
      else inputs := by
  unfold bme68x_bsec_read_data
  by_cases hm : mask = 0
  · simp [hm]
  by_cases hn : (E.bme68x_get_data K.BME68X_FORCED_MODE s.bme68x s.env).1.2.1.status
      &&& K.BME68X_NEW_DATA_MSK = 0
  · simp [hm, hn]
  simp only [hm, hn, ne_eq, not_false_eq_true, if_true, and_self, State.call]
  by_cases hP : mask &&& K.BSEC_PROCESS_PRESSURE = 0 <;>
  by_cases hT : mask &&& K.BSEC_PROCESS_TEMPERATURE = 0 <;>
  by_cases hH : mask &&& K.BSEC_PROCESS_HUMIDITY = 0 <;>
  by_cases hG : mask &&& K.BSEC_PROCESS_GAS = 0 <;>
  by_cases hV : (E.bme68x_get_data K.BME68X_FORCED_MODE s.bme68x s.env).1.2.1.status
      &&& K.BME68X_GASM_VALID_MSK = 0 <;>
  simp [hP, hT, hH, hG, hV]

/-- Claim C1 fails as stated: with only the temperature bit in the mask and a
sample whose new-data flag is unset, the temperature bit is set but the assembled
sequence holds no heat-source signal (it is empty). -/
theorem read_data_heatsource_stale_sample :
    ¬ ((∃ i ∈ (bme68x_bsec_read_data
              (simEnv { simCfg with sample := { simSample with status := 0 } })
              vendorConsts simConv 7000 [] 4 simState).1,
          i.sensor_id = .BSEC_INPUT_HEATSOURCE) ↔
        4 &&& vendorConsts.BSEC_PROCESS_TEMPERATURE ≠ 0) := by
  decide

/-- The heat-source signals of the assembled sequence: exactly one, carrying the
stored offset and the trigger time stamp, when the temperature bit and the
new-data flag are both set, and none otherwise. -/
theorem read_data_heatsource_filter {σ R F : Type} (E : Env σ R F) (K : Consts)
    (cv : SignalConv R F) (ts : Int) (mask : Nat) (s : State σ F) :
    (bme68x_bsec_read_data E K cv ts [] mask s).1.filter
        (fun i => i.sensor_id = .BSEC_INPUT_HEATSOURCE) =
      if mask &&& K.BSEC_PROCESS_TEMPERATURE ≠ 0 ∧
          (E.bme68x_get_data K.BME68X_FORCED_MODE s.bme68x s.env).1.2.1.status
            &&& K.BME68X_NEW_DATA_MSK ≠ 0 then
        [⟨.BSEC_INPUT_HEATSOURCE, s.bme68x_temperature_offset_g, ts⟩]
      else [] := by
  rw [read_data_fst]
  by_cases hT : mask &&& K.BSEC_PROCESS_TEMPERATURE = 0
  · by_cases hm : mask = 0
    · simp [hm]
    · by_cases hn : (E.bme68x_get_data K.BME68X_FORCED_MODE s.bme68x s.env).1.2.1.status
          &&& K.BME68X_NEW_DATA_MSK = 0
      · simp [hm, hn]
      · by_cases hP : mask &&& K.BSEC_PROCESS_PRESSURE = 0 <;>
        by_cases hH : mask &&& K.BSEC_PROCESS_HUMIDITY = 0 <;>
        by_cases hG : mask &&& K.BSEC_PROCESS_GAS = 0 <;>
        by_cases hV : (E.bme68x_get_data K.BME68X_FORCED_MODE s.bme68x s.env).1.2.1.status
            &&& K.BME68X_GASM_VALID_MSK = 0 <;>
        simp [hm, hn, hT, hP, hH, hG, hV, List.filter]
  · have hm : mask ≠ 0 := land_ne_zero_left hT
    by_cases hn : (E.bme68x_get_data K.BME68X_FORCED_MODE s.bme68x s.env).1.2.1.status
        &&& K.BME68X_NEW_DATA_MSK = 0
    · simp [hm, hn]
    · by_cases hP : mask &&& K.BSEC_PROCESS_PRESSURE = 0 <;>
      by_cases hH : mask &&& K.BSEC_PROCESS_HUMIDITY = 0 <;>
      by_cases hG : mask &&& K.BSEC_PROCESS_GAS = 0 <;>
      by_cases hV : (E.bme68x_get_data K.BME68X_FORCED_MODE s.bme68x s.env).1.2.1.status
          &&& K.BME68X_GASM_VALID_MSK = 0 <;>
      simp [hm, hn, hT, hP, hH, hG, hV, List.filter]

/-- Claim C1, as amended: for every process mask, every sensor sample and every
timestamp, the sequence assembled from the empty sequence contains a
`BSEC_INPUT_HEATSOURCE` signal if and only if the `BSEC_PROCESS_TEMPERATURE` bit
of the mask is set and the new-data flag (`BME68X_NEW_DATA_MSK`) of the sample is
set; when present there is exactly one such signal, and it carries the stored
self-heating offset `bme68x_temperature_offset_g` and the trigger time stamp. -/
theorem read_data_heatsource_iff_temperature_bit {σ R F : Type} (E : Env σ R F) (K : Consts)
    (cv : SignalConv R F) (ts : Int) (mask : Nat) (s : State σ F) :
    ((∃ i ∈ (bme68x_bsec_read_data E K cv ts [] mask s).1,
        i.sensor_id = .BSEC_INPUT_HEATSOURCE) ↔
      (mask &&& K.BSEC_PROCESS_TEMPERATURE ≠ 0 ∧
        (E.bme68x_get_data K.BME68X_FORCED_MODE s.bme68x s.env).1.2.1.status
          &&& K.BME68X_NEW_DATA_MSK ≠ 0)) ∧
    (bme68x_bsec_read_data E K cv ts [] mask s).1.filter
        (fun i => i.sensor_id = .BSEC_INPUT_HEATSOURCE) =
      if mask &&& K.BSEC_PROCESS_TEMPERATURE ≠ 0 ∧
          (E.bme68x_get_data K.BME68X_FORCED_MODE s.bme68x s.env).1.2.1.status
            &&& K.BME68X_NEW_DATA_MSK ≠ 0 then
        [⟨.BSEC_INPUT_HEATSOURCE, s.bme68x_temperature_offset_g, ts⟩]
      else [] := by
  have hf := read_data_heatsource_filter E K cv ts mask s
  refine ⟨⟨?_, ?_⟩, hf⟩
  · rintro ⟨i, hi, hid⟩
    by_contra hc
    rw [if_neg hc] at hf
    have hmem : i ∈ (bme68x_bsec_read_data E K cv ts [] mask s).1.filter
        (fun i => i.sensor_id = .BSEC_INPUT_HEATSOURCE) :=
      List.mem_filter.2 ⟨hi, by simpa using hid⟩
    rw [hf] at hmem
    exact absurd hmem (List.not_mem_nil _)
  · intro hc
    rw [if_pos hc] at hf
    have hmem : (⟨.BSEC_INPUT_HEATSOURCE, s.bme68x_temperature_offset_g, ts⟩ : bsec_input_t F) ∈
        (bme68x_bsec_read_data E K cv ts [] mask s).1.filter
          (fun i => i.sensor_id = .BSEC_INPUT_HEATSOURCE) := by
      rw [hf]; exact List.mem_singleton_self _
    exact ⟨_, (List.mem_filter.1 hmem).1, rfl⟩

/-- Claim C1, amended statement at a concrete cycle: all four bits requested and
a fresh sample; the one heat-source signal carries the stored offset (0) and the
trigger time stamp. -/
theorem read_data_heatsource_iff_temperature_bit_witness :
    (bme68x_bsec_read_data (simEnv simCfg) vendorConsts simConv 7000 [] 15 simState).1.filter
        (fun i => i.sensor_id = .BSEC_INPUT_HEATSOURCE) =
      [⟨.BSEC_INPUT_HEATSOURCE, 0, 7000⟩] :=
  (read_data_heatsource_iff_temperature_bit (simEnv simCfg) vendorConsts simConv 7000 15
    simState).2.trans (by decide)

/-- Claim C2: for every process mask and every sample whose gas-valid flag
(`BME68X_GASM_VALID_MSK`) is unset, the sequence assembled from the empty
sequence contains no `BSEC_INPUT_GASRESISTOR` signal. -/
theorem read_data_no_gas_when_invalid {σ R F : Type} (E : Env σ R F) (K : Consts)
    (cv : SignalConv R F) (ts : Int) (mask : Nat) (s : State σ F)
    (hgas : (E.bme68x_get_data K.BME68X_FORCED_MODE s.bme68x s.env).1.2.1.status
              &&& K.BME68X_GASM_VALID_MSK = 0) :
    ∀ i ∈ (bme68x_bsec_read_data E K cv ts [] mask s).1,
      i.sensor_id ≠ .BSEC_INPUT_GASRESISTOR := by
  intro i hi
  rw [read_data_fst] at hi
  simp only [hgas, ne_eq, not_true_eq_false, and_false, if_false, List.append_nil,
    List.nil_append] at hi
  split_ifs at hi <;> simp at hi <;> aesop

/-- Claim C2 at a concrete cycle: all four bits requested, fresh sample without
the gas-valid flag. -/
theorem read_data_no_gas_when_invalid_witness :
    ¬ ∃ i ∈ (bme68x_bsec_read_data
              (simEnv { simCfg with sample := { simSample with status := 0x80 } })
              vendorConsts simConv 7000 [] 15 simState).1,
      i.sensor_id = .BSEC_INPUT_GASRESISTOR :=
  fun ⟨i, hi, hgas⟩ =>
    read_data_no_gas_when_invalid
      (simEnv { simCfg with sample := { simSample with status := 0x80 } })
      vendorConsts simConv 7000 15 simState (by decide) i hi hgas

/-- Claim C3 fails as stated: with all four bits in the mask and a sample that
has the gas-valid flag but not the new-data flag, nothing is assembled. -/
theorem read_data_full_mask_stale_sample :
    (15 &&& vendorConsts.BSEC_PROCESS_PRESSURE ≠ 0 ∧
      15 &&& vendorConsts.BSEC_PROCESS_TEMPERATURE ≠ 0 ∧
      15 &&& vendorConsts.BSEC_PROCESS_HUMIDITY ≠ 0 ∧
      15 &&& vendorConsts.BSEC_PROCESS_GAS ≠ 0 ∧
      0x20 &&& vendorConsts.BME68X_GASM_VALID_MSK ≠ 0) ∧
    (bme68x_bsec_read_data
        (simEnv { simCfg with sample := { simSample with status := 0x20 } })
        vendorConsts simConv 7000 [] 15 simState).1.length ≠ 5 := by
  decide

/-- Claim C3, as amended: for every cycle whose process mask has all four bits
set and whose sample has both the new-data flag and the gas-valid flag,
the assembler started from the empty sequence produces exactly 5 signals, with
identifiers in the order pressure, temperature, heat-source offset, humidity, gas
resistance. -/
theorem read_data_full_cycle {σ R F : Type} (E : Env σ R F) (K : Consts)
    (cv : SignalConv R F) (ts : Int) (mask : Nat) (s : State σ F)
    (hP : mask &&& K.BSEC_PROCESS_PRESSURE ≠ 0)
    (hT : mask &&& K.BSEC_PROCESS_TEMPERATURE ≠ 0)
    (hH : mask &&& K.BSEC_PROCESS_HUMIDITY ≠ 0)
    (hG : mask &&& K.BSEC_PROCESS_GAS ≠ 0)
    (hnew : (E.bme68x_get_data K.BME68X_FORCED_MODE s.bme68x s.env).1.2.1.status
              &&& K.BME68X_NEW_DATA_MSK ≠ 0)
    (hgas : (E.bme68x_get_data K.BME68X_FORCED_MODE s.bme68x s.env).1.2.1.status
              &&& K.BME68X_GASM_VALID_MSK ≠ 0) :
    (bme68x_bsec_read_data E K cv ts [] mask s).1.length = 5 ∧
    (bme68x_bsec_read_data E K cv ts [] mask s).1.map (fun i => i.sensor_id) =
      [.BSEC_INPUT_PRESSURE, .BSEC_INPUT_TEMPERATURE, .BSEC_INPUT_HEATSOURCE,
       .BSEC_INPUT_HUMIDITY, .BSEC_INPUT_GASRESISTOR] := by
  have hm : mask ≠ 0 := land_ne_zero_left hT
  rw [read_data_fst]
  simp [hm, hP, hT, hH, hG, hnew, hgas]

/-- Claim C3, amended statement at a concrete cycle. -/
theorem read_data_full_cycle_witness :
    (bme68x_bsec_read_data (simEnv simCfg) vendorConsts simConv 7000 [] 15 simState).1.length = 5 ∧
    (bme68x_bsec_read_data (simEnv simCfg) vendorConsts simConv 7000 [] 15 simState).1.map
        (fun i => i.sensor_id) =
      [.BSEC_INPUT_PRESSURE, .BSEC_INPUT_TEMPERATURE, .BSEC_INPUT_HEATSOURCE,
       .BSEC_INPUT_HUMIDITY, .BSEC_INPUT_GASRESISTOR] :=
  read_data_full_cycle (simEnv simCfg) vendorConsts simConv 7000 15 simState
    (by decide) (by decide) (by decide) (by decide) (by decide) (by decide)

/-! ## Traces -/

theorem callsSince_of_trace_eq {σ F : Type} (s t : State σ F) (l : List (Call F))
    (h : t.trace = s.trace ++ l) : callsSince s t = l := by
  simp [callsSince, h]

theorem trace_length_call {σ F : Type} (t : State σ F) (c : Call F) (e : σ) :
    (t.call c e).trace.length = t.trace.length + 1 := by
  simp [State.call]

theorem callsSince_call {σ F : Type} (s t : State σ F) (c : Call F) (e : σ)
    (h : s.trace.length ≤ t.trace.length) :
    callsSince s (t.call c e) = callsSince s t ++ [c] := by
  simp [callsSince, State.call, List.drop_append_of_le_length h]

/-! ## Output demultiplexer -/

/-- The calls made by the demultiplexer: none for an empty input batch, otherwise
`bsec_do_steps` followed by `output_ready` with the demultiplexed locals. -/
theorem process_data_calls {σ R F : Type} [Zero F] (E : Env σ R F) (K : Consts)
    (inputs : List (bsec_input_t F)) (s : State σ F) :
    callsSince s (bme68x_bsec_process_data E K inputs s) =
      if inputs.length > 0 then
        [.bsec_do_steps inputs K.BSEC_NUMBER_OUTPUTS,
         .output_ready
           ((E.bsec_do_steps inputs K.BSEC_NUMBER_OUTPUTS s.env).1.2.foldl demux_step
             { process_data_locals K with
               bsec_status := (E.bsec_do_steps inputs K.BSEC_NUMBER_OUTPUTS s.env).1.1 })]
      else [] := by
  apply callsSince_of_trace_eq
  unfold bme68x_bsec_process_data
  split_ifs <;> simp [State.call]

/-- Claim C4: for every input batch and every result of the engine,
`bme68x_bsec_process_data` calls `output_ready` exactly once when the number of
inputs is greater than zero and never when it is zero; when the engine produces
zero outputs for a non-empty batch, the call still happens, with the timestamp
and every value and accuracy argument equal to zero and with the status returned
by the engine as status argument. -/
theorem process_data_output_ready_once {σ R F : Type} [Zero F] (E : Env σ R F) (K : Consts)
    (inputs : List (bsec_input_t F)) (s : State σ F) :
    ((callsSince s (bme68x_bsec_process_data E K inputs s)).countP Call.is_output_ready =
        if inputs.length > 0 then 1 else 0) ∧
    (inputs.length > 0 → (E.bsec_do_steps inputs K.BSEC_NUMBER_OUTPUTS s.env).1.2 = [] →
      callsSince s (bme68x_bsec_process_data E K inputs s) =
        [.bsec_do_steps inputs K.BSEC_NUMBER_OUTPUTS,
         .output_ready
           { timestamp := 0, iaq := 0, iaq_accuracy := 0, temp := 0, raw_temp := 0,
             raw_pressure := 0, humidity := 0, raw_humidity := 0, raw_gas := 0,
             static_iaq := 0, static_iaq_accuracy := 0, co2_equivalent := 0,
             co2_accuracy := 0, breath_voc_equivalent := 0, breath_voc_accuracy := 0,
             comp_gas_value := 0, comp_gas_accuracy := 0, gas_percentage := 0,
             gas_percentage_acccuracy := 0,
             bsec_status := (E.bsec_do_steps inputs K.BSEC_NUMBER_OUTPUTS s.env).1.1 }]) := by
  rw [process_data_calls]
  constructor
  · split_ifs <;> simp [Call.is_output_ready]
  · intro hpos hnone
    simp [hpos, hnone, process_data_locals]

/-- Claim C4 at a concrete cycle: one input, the engine reports status 3 and
produces no output. -/
theorem process_data_output_ready_once_witness :
    callsSince simState
        (bme68x_bsec_process_data (simEnv { simCfg with do_steps_status := 3 }) vendorConsts
          simInputs simState) =
      [.bsec_do_steps simInputs 14,
       .output_ready
         { timestamp := 0, iaq := 0, iaq_accuracy := 0, temp := 0, raw_temp := 0,
           raw_pressure := 0, humidity := 0, raw_humidity := 0, raw_gas := 0,
           static_iaq := 0, static_iaq_accuracy := 0, co2_equivalent := 0,
           co2_accuracy := 0, breath_voc_equivalent := 0, breath_voc_accuracy := 0,
           comp_gas_value := 0, comp_gas_accuracy := 0, gas_percentage := 0,
           gas_percentage_acccuracy := 0, bsec_status := 3 }] :=
  (process_data_output_ready_once (simEnv { simCfg with do_steps_status := 3 }) vendorConsts
    simInputs simState).2 (by decide) rfl

/-- The timestamp local after one pass of the loop body. -/
theorem demux_step_timestamp {F : Type} (acc : output_ready_args F) (o : bsec_output_t F) :
    (demux_step acc o).timestamp =
      if is_recognised_output o.sensor_id then o.time_stamp else acc.timestamp := by
  unfold demux_step
  cases h : o.sensor_id <;> simp [is_recognised_output]

/-- The timestamp local after the whole loop: the time stamp of the last output
with a recognised identifier, or the initial value when there is none. -/
theorem foldl_demux_step_timestamp {F : Type} (outs : List (bsec_output_t F))
    (acc : output_ready_args F) :
    (outs.foldl demux_step acc).timestamp =
      match (outs.filter fun o => is_recognised_output o.sensor_id).getLast? with
      | some o => o.time_stamp
      | none => acc.timestamp := by
  induction outs using List.reverseRecOn with
  | nil => simp
  | append_singleton l o ih =>
    rw [List.foldl_append, List.foldl_cons, List.foldl_nil, demux_step_timestamp,
      List.filter_append]
    by_cases h : is_recognised_output o.sensor_id = true
    · simp [h, List.filter_cons]
    · simp [h, List.filter_cons, ih]

/-- Claim C10 fails as stated: the engine returns a batch of two outputs, an IAQ
output with time stamp 1000 followed by an output with an unrecognised
identifier and time stamp 2000; `output_ready` is called with timestamp 1000,
which is not the time stamp of the last output of the batch. -/
theorem process_data_timestamp_unrecognised_last :
    output_ready_timestamps
        (callsSince simState
          (bme68x_bsec_process_data
            (simEnv { simCfg with
              outputs := [⟨.BSEC_OUTPUT_IAQ, 50, 3, 1000⟩, ⟨.other 12, 1, 0, 2000⟩] })
            vendorConsts simInputs simState)) = [1000] ∧
    (([⟨.BSEC_OUTPUT_IAQ, 50, 3, 1000⟩, ⟨.other 12, 1, 0, 2000⟩] :
        List (bsec_output_t Int)).getLast?.map fun o => o.time_stamp) = some 2000 := by
  decide

/-- Claim C10, as amended: for every batch of outputs returned by the engine for
a non-empty input batch, the timestamp passed to `output_ready` is the
`time_stamp` of the last output of the batch whose identifier is one of the
twelve recognised ones (last-wins among the recognised outputs), and zero when no
output of the batch has a recognised identifier. -/
theorem process_data_timestamp_last_recognised {σ R F : Type} [Zero F] (E : Env σ R F)
    (K : Consts) (inputs : List (bsec_input_t F)) (s : State σ F) (hpos : inputs.length > 0) :
    output_ready_timestamps (callsSince s (bme68x_bsec_process_data E K inputs s)) =
      [match ((E.bsec_do_steps inputs K.BSEC_NUMBER_OUTPUTS s.env).1.2.filter
                fun o => is_recognised_output o.sensor_id).getLast? with
        | some o => o.time_stamp
        | none => 0] := by
  rw [process_data_calls]
  simp only [hpos, if_true, output_ready_timestamps, List.filterMap_cons, List.filterMap_nil,
    foldl_demux_step_timestamp]
  rfl

/-- Claim C10, amended statement at a concrete cycle: the batch of the
counterexample followed by a raw-pressure output with time stamp 3000. -/
theorem process_data_timestamp_last_recognised_witness :
    output_ready_timestamps
        (callsSince simState
          (bme68x_bsec_process_data
            (simEnv { simCfg with
              outputs := [⟨.BSEC_OUTPUT_IAQ, 50, 3, 1000⟩, ⟨.other 12, 1, 0, 2000⟩,
                          ⟨.BSEC_OUTPUT_RAW_PRESSURE, 100325, 0, 3000⟩] })
            vendorConsts simInputs simState)) = [3000] :=
  process_data_timestamp_last_recognised
    (simEnv { simCfg with
      outputs := [⟨.BSEC_OUTPUT_IAQ, 50, 3, 1000⟩, ⟨.other 12, 1, 0, 2000⟩,
                  ⟨.BSEC_OUTPUT_RAW_PRESSURE, 100325, 0, 3000⟩] })
    vendorConsts simInputs simState (by decide)

/-! ## Acquisition trigger -/

/-- The polling loop only sleeps 5000 microseconds and polls the operation mode,
and leaves the device handle alone. -/
theorem poll_op_mode_calls {σ R F : Type} (E : Env σ R F) (K : Consts) (fuel : Nat) :
    ∀ (opmode : Nat) (s t : State σ F), poll_op_mode E K fuel opmode s = some t →
      t.bme68x = s.bme68x ∧
      ∃ l : List (Call F), t.trace = s.trace ++ l ∧
        ∀ c ∈ l, c = .bme68x_get_op_mode ∨ c = .sleep 5000 s.bme68x.intf_ptr := by
  induction fuel with
  | zero =>
    intro opmode s t h
    simp only [poll_op_mode] at h
    split_ifs at h
    simp only [Option.some.injEq] at h
    subst h
    exact ⟨rfl, [], by simp, by simp⟩
  | succ n ih =>
    intro opmode s t h
    simp only [poll_op_mode] at h
    split_ifs at h
    · obtain ⟨hdev, l, hl, hall⟩ := ih _ _ _ h
      refine ⟨by simpa [State.call] using hdev,
        Call.sleep 5000 s.bme68x.intf_ptr :: Call.bme68x_get_op_mode :: l, ?_, ?_⟩
      · simpa [State.call] using hl
      · intro c hc
        simp only [List.mem_cons] at hc
        rcases hc with rfl | rfl | hc
        · exact Or.inr rfl
        · exact Or.inl rfl
        · simpa [State.call] using hall c hc
    · simp only [Option.some.injEq] at h
      subst h
      exact ⟨rfl, [], by simp, by simp⟩

/-- Claim C7 fails as stated: with `trigger_measurement` false and a sensor that
is still in forced mode for one poll, the trigger polls the driver twice and
sleeps once. -/
theorem trigger_measurement_idle_still_polls :
    (bme68x_bsec_trigger_measurement (simEnv simCfg) vendorConsts 10
        { simSettings with trigger_measurement := 0 }
        { simState with env := { clock := 0, busy := 1 } }).map
      (callsSince { simState with env := { clock := 0, busy := 1 } }) =
    some [.bme68x_get_op_mode, .sleep 5000 0, .bme68x_get_op_mode] := by
  decide

/-! ## Initialisation -/

/-- The ten requested virtual sensors, in the order of the request array. -/
theorem update_subscription_calls {σ R F : Type} (E : Env σ R F) (K : Consts) (sample_rate : F)
    (s : State σ F) :
    (bme68x_bsec_update_subscription E K sample_rate s).2.trace =
      s.trace ++
        [.bsec_update_subscription
          [⟨.BSEC_OUTPUT_IAQ, sample_rate⟩, ⟨.BSEC_OUTPUT_STATIC_IAQ, sample_rate⟩,
           ⟨.BSEC_OUTPUT_SENSOR_HEAT_COMPENSATED_TEMPERATURE, sample_rate⟩,
           ⟨.BSEC_OUTPUT_SENSOR_HEAT_COMPENSATED_HUMIDITY, sample_rate⟩,
           ⟨.BSEC_OUTPUT_RAW_PRESSURE, sample_rate⟩,
           ⟨.BSEC_OUTPUT_BREATH_VOC_EQUIVALENT, sample_rate⟩,
           ⟨.BSEC_OUTPUT_CO2_EQUIVALENT, sample_rate⟩,
           ⟨.BSEC_OUTPUT_COMPENSATED_GAS, sample_rate⟩,
           ⟨.BSEC_OUTPUT_RAW_GAS, sample_rate⟩,
           ⟨.BSEC_OUTPUT_GAS_PERCENTAGE, sample_rate⟩]
          K.BSEC_MAX_PHYSICAL_SENSOR] ∧
    (bme68x_bsec_update_subscription E K sample_rate s).2.bme68x_temperature_offset_g =
      s.bme68x_temperature_offset_g := by
  simp [bme68x_bsec_update_subscription, State.call]

/-- Claim C8: `bsec_iot_init` runs its steps in the order driver init, engine
init, configuration load and set (set only for a non-zero length), state load and
set (set only for a non-zero length), output subscription; at the first step that
reports a non-OK status it returns at once with that status in the returned pair
and runs none of the later steps; and it returns (OK, OK) exactly when every step
it ran reported OK.  Here `r1` to `r7` are the results of the seven steps, each
taken in the environment left by the steps before it. -/
theorem bsec_iot_init_steps {σ R F : Type} (E : Env σ R F) (K : Consts)
    (sample_rate temperature_offset : F) (bus_write bus_read sleep : Nat) (s : State σ F) :
    let dev : bme68x_dev :=
      { s.bme68x with
        variant_id := K.BME68X_I2C_ADDR_LOW, intf := K.BME68X_I2C_INTF,
        write := bus_write, read := bus_read, delay_us := sleep }
    let r1 := E.bme68x_init dev s.env
    let r2 := E.bsec_init r1.2
    let r3 := E.config_load K.BSEC_MAX_PROPERTY_BLOB_SIZE r2.2
    let r4 := E.bsec_set_configuration r3.1.2 r3.1.1 K.BSEC_MAX_WORKBUFFER_SIZE r3.2
    let r5 := E.state_load K.BSEC_MAX_STATE_BLOB_SIZE (if r3.1.1 ≠ 0 then r4.2 else r3.2)
    let r6 := E.bsec_set_state r5.1.2 r5.1.1 K.BSEC_MAX_WORKBUFFER_SIZE r5.2
    let requested : List (bsec_sensor_configuration_t F) :=
      [⟨.BSEC_OUTPUT_IAQ, sample_rate⟩, ⟨.BSEC_OUTPUT_STATIC_IAQ, sample_rate⟩,
       ⟨.BSEC_OUTPUT_SENSOR_HEAT_COMPENSATED_TEMPERATURE, sample_rate⟩,
       ⟨.BSEC_OUTPUT_SENSOR_HEAT_COMPENSATED_HUMIDITY, sample_rate⟩,
       ⟨.BSEC_OUTPUT_RAW_PRESSURE, sample_rate⟩,
       ⟨.BSEC_OUTPUT_BREATH_VOC_EQUIVALENT, sample_rate⟩,
       ⟨.BSEC_OUTPUT_CO2_EQUIVALENT, sample_rate⟩,
       ⟨.BSEC_OUTPUT_COMPENSATED_GAS, sample_rate⟩,
       ⟨.BSEC_OUTPUT_RAW_GAS, sample_rate⟩,
       ⟨.BSEC_OUTPUT_GAS_PERCENTAGE, sample_rate⟩]
    let r7 := E.bsec_update_subscription requested K.BSEC_MAX_PHYSICAL_SENSOR
      (if r5.1.1 ≠ 0 then r6.2 else r5.2)
    let driver : List (Call F) := [.bme68x_init dev]
    let engine : List (Call F) := [.bsec_init]
    let config : List (Call F) :=
      .config_load K.BSEC_MAX_PROPERTY_BLOB_SIZE ::
        (if r3.1.1 ≠ 0 then
          [.bsec_set_configuration r3.1.2 r3.1.1 K.BSEC_MAX_WORKBUFFER_SIZE] else [])
    let state : List (Call F) :=
      .state_load K.BSEC_MAX_STATE_BLOB_SIZE ::
        (if r5.1.1 ≠ 0 then [.bsec_set_state r5.1.2 r5.1.1 K.BSEC_MAX_WORKBUFFER_SIZE] else [])
    let subscription : List (Call F) :=
      [.bsec_update_subscription requested K.BSEC_MAX_PHYSICAL_SENSOR]
    let out := bsec_iot_init E K sample_rate temperature_offset bus_write bus_read sleep s
    (r1.1 ≠ K.BME68X_OK →
      out.1 = ⟨r1.1, K.BSEC_OK⟩ ∧ callsSince s out.2 = driver) ∧
    (r1.1 = K.BME68X_OK → r2.1 ≠ K.BSEC_OK →
      out.1 = ⟨r1.1, r2.1⟩ ∧ callsSince s out.2 = driver ++ engine) ∧
    (r1.1 = K.BME68X_OK → r2.1 = K.BSEC_OK → r3.1.1 ≠ 0 → r4.1 ≠ K.BSEC_OK →
      out.1 = ⟨r1.1, r4.1⟩ ∧ callsSince s out.2 = driver ++ engine ++ config) ∧
    (r1.1 = K.BME68X_OK → r2.1 = K.BSEC_OK → (r3.1.1 = 0 ∨ r4.1 = K.BSEC_OK) →
      r5.1.1 ≠ 0 → r6.1 ≠ K.BSEC_OK →
      out.1 = ⟨r1.1, r6.1⟩ ∧ callsSince s out.2 = driver ++ engine ++ config ++ state) ∧
    (r1.1 = K.BME68X_OK → r2.1 = K.BSEC_OK → (r3.1.1 = 0 ∨ r4.1 = K.BSEC_OK) →
      (r5.1.1 = 0 ∨ r6.1 = K.BSEC_OK) →
      out.1 = ⟨r1.1, r7.1⟩ ∧
      callsSince s out.2 = driver ++ engine ++ config ++ state ++ subscription) ∧
    (out.1 = ⟨K.BME68X_OK, K.BSEC_OK⟩ ↔
      r1.1 = K.BME68X_OK ∧ r2.1 = K.BSEC_OK ∧ (r3.1.1 = 0 ∨ r4.1 = K.BSEC_OK) ∧
      (r5.1.1 = 0 ∨ r6.1 = K.BSEC_OK) ∧ r7.1 = K.BSEC_OK) := by
  intro dev r1 r2 r3 r4 r5 r6 requested r7 driver engine config state subscription out
  have c1 : r1.1 ≠ K.BME68X_OK →
      out.1 = ⟨r1.1, K.BSEC_OK⟩ ∧ callsSince s out.2 = driver := by
    intro h1
    simp only [r1, dev] at h1
    simp [out, bsec_iot_init, callsSince, State.call, h1, driver, dev, r1]
  have c2 : r1.1 = K.BME68X_OK → r2.1 ≠ K.BSEC_OK →
      out.1 = ⟨r1.1, r2.1⟩ ∧ callsSince s out.2 = driver ++ engine := by
    intro h1 h2
    simp only [r1, r2, dev] at h1 h2
    simp [out, bsec_iot_init, callsSince, State.call, h1, h2, driver, engine, dev, r1, r2]
  have c3 : r1.1 = K.BME68X_OK → r2.1 = K.BSEC_OK → r3.1.1 ≠ 0 → r4.1 ≠ K.BSEC_OK →
      out.1 = ⟨r1.1, r4.1⟩ ∧ callsSince s out.2 = driver ++ engine ++ config := by
    intro h1 h2 h3 h4
    simp only [r1, r2, r3, r4, dev] at h1 h2 h3 h4
    simp [out, bsec_iot_init, bsec_iot_init_config, callsSince, State.call, h1, h2, h3, h4,
      driver, engine, config, dev, r1, r2, r3, r4]
  have c4 : r1.1 = K.BME68X_OK → r2.1 = K.BSEC_OK → (r3.1.1 = 0 ∨ r4.1 = K.BSEC_OK) →
      r5.1.1 ≠ 0 → r6.1 ≠ K.BSEC_OK →
      out.1 = ⟨r1.1, r6.1⟩ ∧ callsSince s out.2 = driver ++ engine ++ config ++ state := by
    intro h1 h2 h34 h5 h6
    by_cases h3 : r3.1.1 = 0
    · simp only [r1, r2, r3, dev] at h1 h2 h3
      simp only [r1, r2, r3, r4, r5, r6, dev, h3, ne_eq, not_true_eq_false, if_false] at h5 h6
      simp [out, bsec_iot_init, bsec_iot_init_config, bsec_iot_init_state, callsSince,
        State.call, h1, h2, h3, h5, h6, driver, engine, config, state, dev, r1, r2, r3, r4, r5, r6]
    · have h4 : r4.1 = K.BSEC_OK := h34.resolve_left h3
      simp only [r1, r2, r3, r4, dev] at h1 h2 h3 h4
      simp only [r1, r2, r3, r4, r5, r6, dev, h3, ne_eq, not_false_eq_true, if_true] at h5 h6
      simp [out, bsec_iot_init, bsec_iot_init_config, bsec_iot_init_state, callsSince,
        State.call, h1, h2, h3, h4, h5, h6, driver, engine, config, state, dev, r1, r2, r3, r4,
        r5, r6]
  have c5 : r1.1 = K.BME68X_OK → r2.1 = K.BSEC_OK → (r3.1.1 = 0 ∨ r4.1 = K.BSEC_OK) →
      (r5.1.1 = 0 ∨ r6.1 = K.BSEC_OK) →
      out.1 = ⟨r1.1, r7.1⟩ ∧
      callsSince s out.2 = driver ++ engine ++ config ++ state ++ subscription := by
    intro h1 h2 h34 h56
    by_cases h3 : r3.1.1 = 0
    · simp only [r1, r2, r3, r4, dev] at h1 h2 h3
      by_cases h5 : r5.1.1 = 0
      · simp only [r1, r2, r3, r4, r5, dev, h3, ne_eq, not_true_eq_false, if_false] at h5
        simp [out, bsec_iot_init, bsec_iot_init_config, bsec_iot_init_state, bsec_iot_init_subscribe,
        bme68x_bsec_update_subscription, callsSince, State.call, driver, engine, config, state,
        subscription, requested, dev, r1, r2, r3, r4, r5, r6, r7, h1, h2, h3, h5]
      · have h6 : r6.1 = K.BSEC_OK := h56.resolve_left h5
        simp only [r1, r2, r3, r4, r5, r6, dev, h3, ne_eq, not_true_eq_false, if_false] at h5 h6
        simp [out, bsec_iot_init, bsec_iot_init_config, bsec_iot_init_state, bsec_iot_init_subscribe,
        bme68x_bsec_update_subscription, callsSince, State.call, driver, engine, config, state,
        subscription, requested, dev, r1, r2, r3, r4, r5, r6, r7, h1, h2, h3, h5, h6]
    · have h4 : r4.1 = K.BSEC_OK := h34.resolve_left h3
      simp only [r1, r2, r3, r4, dev] at h1 h2 h3 h4
      by_cases h5 : r5.1.1 = 0
      · simp only [r1, r2, r3, r4, r5, dev, h3, ne_eq, not_false_eq_true, if_true] at h5
        simp [out, bsec_iot_init, bsec_iot_init_config, bsec_iot_init_state, bsec_iot_init_subscribe,
        bme68x_bsec_update_subscription, callsSince, State.call, driver, engine, config, state,
        subscription, requested, dev, r1, r2, r3, r4, r5, r6, r7, h1, h2, h3, h4, h5]
      · have h6 : r6.1 = K.BSEC_OK := h56.resolve_left h5
        simp only [r1, r2, r3, r4, r5, r6, dev, h3, ne_eq, not_false_eq_true, if_true] at h5 h6
        simp [out, bsec_iot_init, bsec_iot_init_config, bsec_iot_init_state, bsec_iot_init_subscribe,
        bme68x_bsec_update_subscription, callsSince, State.call, driver, engine, config, state,
        subscription, requested, dev, r1, r2, r3, r4, r5, r6, r7, h1, h2, h3, h4, h5, h6]
  refine ⟨c1, c2, c3, c4, c5, ?_⟩
  by_cases h1 : r1.1 = K.BME68X_OK
  swap
  · rw [(c1 h1).1]
    simp [h1]
  by_cases h2 : r2.1 = K.BSEC_OK
  swap
  · rw [(c2 h1 h2).1]
    simp [h1, h2]
  by_cases h34 : r3.1.1 = 0 ∨ r4.1 = K.BSEC_OK
  swap
  · rw [(c3 h1 h2 (fun h => h34 (Or.inl h)) (fun h => h34 (Or.inr h))).1]
    simp only [return_values_init.mk.injEq, h1, h2, h34, true_and, false_and, and_false,
      iff_false]
    exact fun h => h34 (Or.inr h)
  by_cases h56 : r5.1.1 = 0 ∨ r6.1 = K.BSEC_OK
  swap
  · rw [(c4 h1 h2 h34 (fun h => h56 (Or.inl h)) (fun h => h56 (Or.inr h))).1]
    simp only [return_values_init.mk.injEq, h1, h2, h34, h56, true_and, false_and, and_false,
      iff_false]
    exact fun h => h56 (Or.inr h)
  rw [(c5 h1 h2 h34 h56).1]
  simp [h1, h2, h34, h56]

/-- Claim C8 at a concrete start-up: no stored configuration, a stored state of
length 7, and the engine rejects the state with status -34. -/
theorem bsec_iot_init_steps_witness :
    (bsec_iot_init (simEnv { simCfg with state_len := 7, set_state_status := -34 })
        vendorConsts 3 5 1 2 3 simState).1 = ⟨0, -34⟩ ∧
    callsSince simState
        (bsec_iot_init (simEnv { simCfg with state_len := 7, set_state_status := -34 })
          vendorConsts 3 5 1 2 3 simState).2 =
      [.bme68x_init
          { variant_id := 0x76, intf := 1, write := 1, read := 2, delay_us := 3, intf_ptr := 0 },
        .bsec_init, .config_load 454, .state_load 139, .bsec_set_state [] 7 2048] :=
  (bsec_iot_init_steps (simEnv { simCfg with state_len := 7, set_state_status := -34 })
    vendorConsts 3 5 1 2 3 simState).2.2.2.1 rfl rfl (Or.inl rfl) (by decide) (by decide)

/-- Outcome of the last stage of a failed initialisation. -/
theorem init_subscribe_outcome {σ R F : Type} (E : Env σ R F) (K : Consts)
    (sample_rate temperature_offset : F) (ret : return_values_init) (s t : State σ F)
    (hret : ret.bme68x_status = K.BME68X_OK) (hle : s.trace.length ≤ t.trace.length)
    (hfail : (bsec_iot_init_subscribe E K sample_rate temperature_offset ret t).1 ≠
      ⟨K.BME68X_OK, K.BSEC_OK⟩) :
    init_failure_outcome K temperature_offset s
      (bsec_iot_init_subscribe E K sample_rate temperature_offset ret t) := by
  right
  simp only [bsec_iot_init_subscribe, bme68x_bsec_update_subscription, ite_self, hret, ne_eq,
    return_values_init.mk.injEq, true_and] at hfail
  refine ⟨?_, ?_, ?_, ?_⟩
  · simp only [bsec_iot_init_subscribe, bme68x_bsec_update_subscription, ite_self]
    rw [callsSince_call _ _ _ _ (by simpa using hle)]
    simp [Call.is_update_subscription]
  · simp [bsec_iot_init_subscribe, hret]
  · simpa [bsec_iot_init_subscribe, bme68x_bsec_update_subscription] using hfail
  · simp [bsec_iot_init_subscribe, bme68x_bsec_update_subscription, State.call]

/-- Outcome of a failed initialisation from the state-loading stage on. -/
theorem init_state_outcome {σ R F : Type} (E : Env σ R F) (K : Consts)
    (sample_rate temperature_offset : F) (ret : return_values_init) (s t : State σ F)
    (hret : ret.bme68x_status = K.BME68X_OK) (hle : s.trace.length ≤ t.trace.length)
    (hpre : (callsSince s t).any Call.is_update_subscription = false)
    (hoff : t.bme68x_temperature_offset_g = s.bme68x_temperature_offset_g)
    (hfail : (bsec_iot_init_state E K sample_rate temperature_offset ret t).1 ≠
      ⟨K.BME68X_OK, K.BSEC_OK⟩) :
    init_failure_outcome K temperature_offset s
      (bsec_iot_init_state E K sample_rate temperature_offset ret t) := by
  simp only [bsec_iot_init_state] at hfail ⊢
  split_ifs at hfail ⊢ with hlen hst
  · left
    refine ⟨?_, by simpa [State.call] using hoff⟩
    rw [callsSince_call _ _ _ _ (by simp [trace_length_call]; omega), callsSince_call _ _ _ _ hle]
    simp [hpre, Call.is_update_subscription]
  · exact init_subscribe_outcome E K _ _ _ s _ hret (by simp [trace_length_call]; omega) hfail
  · exact init_subscribe_outcome E K _ _ _ s _ hret (by simp [trace_length_call]; omega) hfail

/-- Outcome of a failed initialisation from the configuration-loading stage on. -/
theorem init_config_outcome {σ R F : Type} (E : Env σ R F) (K : Consts)
    (sample_rate temperature_offset : F) (ret : return_values_init) (s t : State σ F)
    (hret : ret.bme68x_status = K.BME68X_OK) (hle : s.trace.length ≤ t.trace.length)
    (hpre : (callsSince s t).any Call.is_update_subscription = false)
    (hoff : t.bme68x_temperature_offset_g = s.bme68x_temperature_offset_g)
    (hfail : (bsec_iot_init_config E K sample_rate temperature_offset ret t).1 ≠
      ⟨K.BME68X_OK, K.BSEC_OK⟩) :
    init_failure_outcome K temperature_offset s
      (bsec_iot_init_config E K sample_rate temperature_offset ret t) := by
  simp only [bsec_iot_init_config] at hfail ⊢
  split_ifs at hfail ⊢ with hlen hst
  · left
    refine ⟨?_, by simpa [State.call] using hoff⟩
    rw [callsSince_call _ _ _ _ (by simp [trace_length_call]; omega), callsSince_call _ _ _ _ hle]
    simp [hpre, Call.is_update_subscription]
  · refine init_state_outcome E K _ _ _ s _ hret (by simp [trace_length_call]; omega) ?_
      (by simpa [State.call] using hoff) hfail
    rw [callsSince_call _ _ _ _ (by simp [trace_length_call]; omega), callsSince_call _ _ _ _ hle]
    simp [hpre, Call.is_update_subscription]
  · refine init_state_outcome E K _ _ _ s _ hret (by simp [trace_length_call]; omega) ?_
      (by simpa [State.call] using hoff) hfail
    rw [callsSince_call _ _ _ _ hle]
    simp [hpre, Call.is_update_subscription]

/-- Claim C9 fails as stated: when only the output subscription fails (status 1),
`bsec_iot_init` returns the pair (0, 1) and the stored offset, 0 before the call,
is 5 afterwards. -/
theorem bsec_iot_init_offset_after_failed_subscription :
    (bsec_iot_init (simEnv { simCfg with subscription_status := 1 })
        vendorConsts 3 5 1 2 3 simState).1 = ⟨0, 1⟩ ∧
    simState.bme68x_temperature_offset_g = 0 ∧
    (bsec_iot_init (simEnv { simCfg with subscription_status := 1 })
        vendorConsts 3 5 1 2 3 simState).2.bme68x_temperature_offset_g = 5 := by
  decide

/-- Claim C9, as amended: whenever `bsec_iot_init` returns a pair other than
(OK, OK), either the failing step came before the output subscription (the
subscription was not called) and the stored offset `bme68x_temperature_offset_g`
has the same value as before the call, or the failing step is the output
subscription itself and the stored offset is already the new
`temperature_offset`. -/
theorem bsec_iot_init_offset_on_failure {σ R F : Type} (E : Env σ R F) (K : Consts)
    (sample_rate temperature_offset : F) (bus_write bus_read sleep : Nat) (s : State σ F)
    (hfail : (bsec_iot_init E K sample_rate temperature_offset bus_write bus_read sleep s).1 ≠
      ⟨K.BME68X_OK, K.BSEC_OK⟩) :
    ((callsSince s
          (bsec_iot_init E K sample_rate temperature_offset bus_write bus_read sleep s).2).any
        Call.is_update_subscription = false ∧
      (bsec_iot_init E K sample_rate temperature_offset bus_write bus_read sleep
        s).2.bme68x_temperature_offset_g = s.bme68x_temperature_offset_g) ∨
    ((callsSince s
          (bsec_iot_init E K sample_rate temperature_offset bus_write bus_read sleep s).2).any
        Call.is_update_subscription = true ∧
      (bsec_iot_init E K sample_rate temperature_offset bus_write bus_read sleep
        s).1.bme68x_status = K.BME68X_OK ∧
      (bsec_iot_init E K sample_rate temperature_offset bus_write bus_read sleep
        s).1.bsec_status ≠ K.BSEC_OK ∧
      (bsec_iot_init E K sample_rate temperature_offset bus_write bus_read sleep
        s).2.bme68x_temperature_offset_g = temperature_offset) := by
  have key : init_failure_outcome K temperature_offset s
      (bsec_iot_init E K sample_rate temperature_offset bus_write bus_read sleep s) := by
    simp only [bsec_iot_init] at hfail ⊢
    split_ifs at hfail ⊢ with h1 h2
    · left
      simp [callsSince, State.call, Call.is_update_subscription]
    · left
      simp [callsSince, State.call, Call.is_update_subscription]
    · refine init_config_outcome E K _ _ _ s _ (by simpa using h1)
        (by simp only [trace_length_call]; omega) ?_ (by simp [State.call]) hfail
      simp [callsSince, State.call, Call.is_update_subscription]
  exact key

/-- Claim C9, amended statement at a concrete start-up: the engine initialisation
fails with status -2, the subscription is never reached and the stored offset
keeps its old value. -/
theorem bsec_iot_init_offset_on_failure_witness :
    ((callsSince simState
          (bsec_iot_init (simEnv { simCfg with bsec_init_status := -2 })
            vendorConsts 3 5 1 2 3 simState).2).any
        Call.is_update_subscription = false ∧
      (bsec_iot_init (simEnv { simCfg with bsec_init_status := -2 })
        vendorConsts 3 5 1 2 3 simState).2.bme68x_temperature_offset_g =
          simState.bme68x_temperature_offset_g) ∨
    ((callsSince simState
          (bsec_iot_init (simEnv { simCfg with bsec_init_status := -2 })
            vendorConsts 3 5 1 2 3 simState).2).any
        Call.is_update_subscription = true ∧
      (bsec_iot_init (simEnv { simCfg with bsec_init_status := -2 })
        vendorConsts 3 5 1 2 3 simState).1.bme68x_status = vendorConsts.BME68X_OK ∧
      (bsec_iot_init (simEnv { simCfg with bsec_init_status := -2 })
        vendorConsts 3 5 1 2 3 simState).1.bsec_status ≠ vendorConsts.BSEC_OK ∧
      (bsec_iot_init (simEnv { simCfg with bsec_init_status := -2 })
        vendorConsts 3 5 1 2 3 simState).2.bme68x_temperature_offset_g = 5) :=
  bsec_iot_init_offset_on_failure (simEnv { simCfg with bsec_init_status := -2 })
    vendorConsts 3 5 1 2 3 simState (by decide)

/-! ## End-of-cycle sleep -/

theorem wrap64_of_mem_range (x : Int) (hlo : -2 ^ 63 ≤ x) (hhi : x < 2 ^ 63) : wrap64 x = x := by
  unfold wrap64
  rw [Int.emod_eq_of_lt (by omega) (by omega)]
  omega

theorem wrap64_lt (x : Int) : wrap64 x < 2 ^ 63 := by
  unfold wrap64
  have := Int.emod_lt_of_pos (x + 2 ^ 63) (show (0 : Int) < 2 ^ 64 by norm_num)
  omega

theorem tdiv_nonpos_of_nonpos (a : Int) (ha : a ≤ 0) : Int.tdiv a 1000 ≤ 0 := by
  have h : Int.tdiv a 1000 = -Int.tdiv (-a) 1000 := by
    rw [Int.neg_tdiv, neg_neg]
  rw [h]
  have := Int.tdiv_nonneg (show (0 : Int) ≤ -a by omega) (show (0 : Int) ≤ 1000 by norm_num)
  omega

/-- The calls of the end-of-cycle block: the clock reading, followed by one sleep
exactly when the computed interval is positive. -/
theorem loop_sleep_calls {σ R F : Type} (E : Env σ R F) (next_call : Int) (s : State σ F) :
    callsSince s (bsec_iot_loop_sleep E next_call s) =
      .get_timestamp_us ::
        (if time_stamp_interval_us next_call (E.get_timestamp_us s.env).1 > 0 then
          [.sleep (time_stamp_interval_us next_call (E.get_timestamp_us s.env).1 % 2 ^ 32).toNat
            s.bme68x.intf_ptr]
        else []) := by
  apply callsSince_of_trace_eq
  by_cases h : time_stamp_interval_us next_call (E.get_timestamp_us s.env).1 > 0 <;>
    simp [bsec_iot_loop_sleep, State.call, h]

/-- Claim C6 fails as stated: with `next_call` equal to the least 64-bit value
and a clock reading of 6 microseconds, `next_call` is earlier than the current
time in nanoseconds, the subtraction wraps around to a positive value, and the
end-of-cycle sleep is called (with duration 2783138801). -/
theorem end_of_cycle_sleep_wraps :
    (-9223372036854775808 : Int) < wrap64 (6 * 1000) ∧
    callsSince { simState with env := { clock := 6, busy := 0 } }
        (bsec_iot_loop_sleep (simEnv simCfg) (-9223372036854775808)
          { simState with env := { clock := 6, busy := 0 } }) =
      [.get_timestamp_us, .sleep 2783138801 0] := by
  decide

/-- Claim C6, as amended: in the end-of-cycle block of every iteration, for every
`next_call` timestamp and every clock reading, the sleep is never called with a
negative duration: it is called only when the computed interval is positive, with
the low 32 bits of that interval as duration; and when `next_call` is earlier
than the current time in nanoseconds (as the loop computes it) and the difference
of the two is representable as a signed 64-bit integer, no end-of-cycle sleep
call is made at all. -/
theorem end_of_cycle_sleep {σ R F : Type} (E : Env σ R F) (next_call : Int) (s : State σ F) :
    (∀ d p, Call.sleep d p ∈ callsSince s (bsec_iot_loop_sleep E next_call s) →
      0 < time_stamp_interval_us next_call (E.get_timestamp_us s.env).1 ∧
      (d : Int) = time_stamp_interval_us next_call (E.get_timestamp_us s.env).1 % 2 ^ 32 ∧
      d < 2 ^ 32) ∧
    (next_call < wrap64 ((E.get_timestamp_us s.env).1 * 1000) →
      -2 ^ 63 ≤ next_call - wrap64 ((E.get_timestamp_us s.env).1 * 1000) →
      callsSince s (bsec_iot_loop_sleep E next_call s) = [.get_timestamp_us]) := by
  rw [loop_sleep_calls]
  constructor
  · intro d p hmem
    split_ifs at hmem with hpos
    · simp only [List.mem_cons, List.mem_singleton, Call.sleep.injEq, List.not_mem_nil,
        or_false, false_or, reduceCtorEq] at hmem
      obtain ⟨hd, -⟩ := hmem
      have hnn : (0 : Int) ≤ time_stamp_interval_us next_call (E.get_timestamp_us s.env).1
          % 2 ^ 32 := Int.emod_nonneg _ (by norm_num)
      have hlt : time_stamp_interval_us next_call (E.get_timestamp_us s.env).1 % 2 ^ 32
          < 2 ^ 32 := Int.emod_lt_of_pos _ (by norm_num)
      have hcast : (d : Int) =
          time_stamp_interval_us next_call (E.get_timestamp_us s.env).1 % 2 ^ 32 := by
        rw [hd, Int.toNat_of_nonneg hnn]
      refine ⟨hpos, hcast, ?_⟩
      have : (d : Int) < 2 ^ 32 := by rw [hcast]; exact hlt
      exact_mod_cast this
    · simp at hmem
  · intro hearlier hrange
    have hw : wrap64 (next_call - wrap64 ((E.get_timestamp_us s.env).1 * 1000)) =
        next_call - wrap64 ((E.get_timestamp_us s.env).1 * 1000) :=
      wrap64_of_mem_range _ hrange (by omega)
    have hle : time_stamp_interval_us next_call (E.get_timestamp_us s.env).1 ≤ 0 := by
      unfold time_stamp_interval_us
      rw [hw]
      exact tdiv_nonpos_of_nonpos _ (by omega)
    rw [if_neg (by omega)]

/-- Claim C6, amended statement at a concrete cycle: the next call is due at
3 s, the clock reads 4 s, and the block only reads the clock. -/
theorem end_of_cycle_sleep_witness :
    callsSince { simState with env := { clock := 4000000, busy := 0 } }
        (bsec_iot_loop_sleep (simEnv simCfg) 3000000000
          { simState with env := { clock := 4000000, busy := 0 } }) =
      [.get_timestamp_us] :=
  (end_of_cycle_sleep (simEnv simCfg) 3000000000
    { simState with env := { clock := 4000000, busy := 0 } }).2 (by decide) (by decide)

/-! ## State persistence -/

theorem quiet_since_refl {σ F : Type} (s : State σ F) : quiet_since s s :=
  ⟨[], by simp, by simp⟩

theorem quiet_since_trans {σ F : Type} {s t u : State σ F} (h1 : quiet_since s t)
    (h2 : quiet_since t u) : quiet_since s u := by
  obtain ⟨l1, e1, q1⟩ := h1
  obtain ⟨l2, e2, q2⟩ := h2
  refine ⟨l1 ++ l2, by rw [e2, e1, List.append_assoc], ?_⟩
  intro c hc
  rcases List.mem_append.1 hc with hc | hc
  · exact q1 c hc
  · exact q2 c hc

theorem quiet_since_call {σ F : Type} (s : State σ F) (c : Call F) (e : σ)
    (h1 : c.is_state_save = false) (h2 : c.is_get_state = false) :
    quiet_since s (s.call c e) :=
  ⟨[c], rfl, by simp [h1, h2]⟩

theorem quiet_since_of_call {σ F : Type} {s t : State σ F} {c : Call F} {e : σ}
    (h : quiet_since (s.call c e) t) (h1 : c.is_state_save = false)
    (h2 : c.is_get_state = false) : quiet_since s t :=
  quiet_since_trans (quiet_since_call s c e h1 h2) h

/-- The polling loop makes no persistence call. -/
theorem poll_op_mode_quiet {σ R F : Type} (E : Env σ R F) (K : Consts) (fuel opmode : Nat)
    (s t : State σ F) (h : poll_op_mode E K fuel opmode s = some t) : quiet_since s t := by
  obtain ⟨-, l, hl, hall⟩ := poll_op_mode_calls E K fuel opmode s t h
  refine ⟨l, hl, ?_⟩
  intro c hc
  rcases hall c hc with rfl | rfl <;> exact ⟨rfl, rfl⟩

/-- The acquisition trigger makes no persistence call. -/
theorem trigger_measurement_quiet {σ R F : Type} (E : Env σ R F) (K : Consts) (fuel : Nat)
    (st : bsec_bme_settings_t) (s t : State σ F)
    (h : bme68x_bsec_trigger_measurement E K fuel st s = some t) : quiet_since s t := by
  simp only [bme68x_bsec_trigger_measurement] at h
  by_cases htrig : st.trigger_measurement = 0
  · simp only [htrig, ne_eq, not_true_eq_false, if_false] at h
    exact quiet_since_of_call (poll_op_mode_quiet E K _ _ _ _ h) rfl rfl
  · simp only [htrig, ne_eq, not_false_eq_true, if_true] at h
    have h0 := poll_op_mode_quiet E K _ _ _ _ h
    have h1 := quiet_since_of_call h0 rfl rfl
    have h2 := quiet_since_of_call h1 rfl rfl
    have h3 := quiet_since_of_call h2 rfl rfl
    have h4 := quiet_since_of_call h3 rfl rfl
    have h5 := quiet_since_of_call h4 rfl rfl
    exact quiet_since_of_call h5 rfl rfl

/-- The state after the input assembler: the driver is asked for the sample
exactly when the mask is non-zero. -/
theorem read_data_snd {σ R F : Type} (E : Env σ R F) (K : Consts) (cv : SignalConv R F)
    (ts : Int) (inputs : List (bsec_input_t F)) (mask : Nat) (s : State σ F) :
    (bme68x_bsec_read_data E K cv ts inputs mask s).2 =
      if mask ≠ 0 then
        s.call (.bme68x_get_data K.BME68X_FORCED_MODE)
          (E.bme68x_get_data K.BME68X_FORCED_MODE s.bme68x s.env).2
      else s := by
  unfold bme68x_bsec_read_data
  by_cases hm : mask = 0
  · simp [hm]
  · by_cases hn : (E.bme68x_get_data K.BME68X_FORCED_MODE s.bme68x s.env).1.2.1.status
        &&& K.BME68X_NEW_DATA_MSK = 0 <;> simp [hm, hn]

/-- The input assembler makes no persistence call. -/
theorem read_data_quiet {σ R F : Type} (E : Env σ R F) (K : Consts) (cv : SignalConv R F)
    (ts : Int) (inputs : List (bsec_input_t F)) (mask : Nat) (s : State σ F) :
    quiet_since s (bme68x_bsec_read_data E K cv ts inputs mask s).2 := by
  rw [read_data_snd]
  split_ifs
  · exact quiet_since_call s _ _ (by rfl) (by rfl)
  · exact quiet_since_refl s

/-- The output demultiplexer makes no persistence call. -/
theorem process_data_quiet {σ R F : Type} [Zero F] (E : Env σ R F) (K : Consts)
    (inputs : List (bsec_input_t F)) (s : State σ F) :
    quiet_since s (bme68x_bsec_process_data E K inputs s) := by
  simp only [bme68x_bsec_process_data]
  split_ifs
  · exact quiet_since_trans (quiet_since_call s _ _ (by rfl) (by rfl))
      (quiet_since_call _ _ _ (by rfl) (by rfl))
  · exact quiet_since_refl s

/-- The end-of-cycle block makes no persistence call. -/
theorem loop_sleep_quiet {σ R F : Type} (E : Env σ R F) (next_call : Int) (s : State σ F) :
    quiet_since s (bsec_iot_loop_sleep E next_call s) := by
  simp only [bsec_iot_loop_sleep]
  split_ifs
  · exact quiet_since_trans (quiet_since_call s _ _ (by rfl) (by rfl))
      (quiet_since_call _ _ _ (by rfl) (by rfl))
  · exact quiet_since_call s _ _ (by rfl) (by rfl)

/-- The persistence block: when the incremented counter has reached the interval
it asks the engine for its state, saves it when the engine reports OK, and resets
the counter; otherwise it only increments the counter. -/
theorem loop_save_spec {σ R F : Type} (E : Env σ R F) (K : Consts) (save_intvl n : Nat)
    (s : State σ F) :
    (bsec_iot_loop_save E K save_intvl n s).1.trace =
      s.trace ++
        (if (n + 1) % 2 ^ 32 ≥ save_intvl then
          .bsec_get_state 0 K.BSEC_MAX_STATE_BLOB_SIZE K.BSEC_MAX_WORKBUFFER_SIZE ::
            (if (E.bsec_get_state 0 K.BSEC_MAX_STATE_BLOB_SIZE K.BSEC_MAX_WORKBUFFER_SIZE
                  s.env).1.1 = K.BSEC_OK then
              [.state_save
                (E.bsec_get_state 0 K.BSEC_MAX_STATE_BLOB_SIZE K.BSEC_MAX_WORKBUFFER_SIZE
                  s.env).1.2.1
                (E.bsec_get_state 0 K.BSEC_MAX_STATE_BLOB_SIZE K.BSEC_MAX_WORKBUFFER_SIZE
                  s.env).1.2.2]
            else [])
        else []) ∧
    (bsec_iot_loop_save E K save_intvl n s).2 =
      if (n + 1) % 2 ^ 32 ≥ save_intvl then 0 else (n + 1) % 2 ^ 32 := by
  by_cases h : save_intvl ≤ (n + 1) % 4294967296
  · by_cases hok : (E.bsec_get_state 0 K.BSEC_MAX_STATE_BLOB_SIZE K.BSEC_MAX_WORKBUFFER_SIZE
        s.env).1.1 = K.BSEC_OK <;> simp [bsec_iot_loop_save, State.call, h, hok]
  · simp [bsec_iot_loop_save, h]

/-- One iteration, seen from the persistence block: the calls of the iteration
are the calls of the persistence block, preceded and followed by calls that are
not persistence calls; the counter after the iteration is the one the block
leaves. -/
theorem loop_body_spec {σ R F : Type} [Zero F] (E : Env σ R F) (K : Consts)
    (cv : SignalConv R F) (fuel save_intvl : Nat) (L L1 : LoopState σ F)
    (h : bsec_iot_loop_body E K cv fuel save_intvl L = some L1) :
    ∃ (s3 : State σ F) (l1 l2 : List (Call F)),
      L1.w.trace = L.w.trace ++ (l1 ++
        ((if (L.n_samples + 1) % 2 ^ 32 ≥ save_intvl then
          .bsec_get_state 0 K.BSEC_MAX_STATE_BLOB_SIZE K.BSEC_MAX_WORKBUFFER_SIZE ::
            (if (E.bsec_get_state 0 K.BSEC_MAX_STATE_BLOB_SIZE K.BSEC_MAX_WORKBUFFER_SIZE
                  s3.env).1.1 = K.BSEC_OK then
              [.state_save
                (E.bsec_get_state 0 K.BSEC_MAX_STATE_BLOB_SIZE K.BSEC_MAX_WORKBUFFER_SIZE
                  s3.env).1.2.1
                (E.bsec_get_state 0 K.BSEC_MAX_STATE_BLOB_SIZE K.BSEC_MAX_WORKBUFFER_SIZE
                  s3.env).1.2.2]
            else [])
        else []) ++ l2)) ∧
      (∀ c ∈ l1, c.is_state_save = false ∧ c.is_get_state = false) ∧
      (∀ c ∈ l2, c.is_state_save = false ∧ c.is_get_state = false) ∧
      (L1.n_samples = if (L.n_samples + 1) % 2 ^ 32 ≥ save_intvl then 0
        else (L.n_samples + 1) % 2 ^ 32) ∧
      state_before_save E K cv fuel L = some s3 := by
  let ts : Int := wrap64 ((E.get_timestamp_us L.w.env).1 * 1000)
  let s0 : State σ F := L.w.call .get_timestamp_us (E.get_timestamp_us L.w.env).2
  let st : bsec_bme_settings_t := (E.bsec_sensor_control ts s0.env).1.2
  let s1 : State σ F := s0.call (.bsec_sensor_control ts) (E.bsec_sensor_control ts s0.env).2
  have hbody : bsec_iot_loop_body E K cv fuel save_intvl L =
      match bme68x_bsec_trigger_measurement E K fuel st s1 with
      | none => none
      | some s2 =>
        some
          { w := bsec_iot_loop_sleep E st.next_call
              (bsec_iot_loop_save E K save_intvl L.n_samples
                (bme68x_bsec_process_data E K
                  (bme68x_bsec_read_data E K cv ts [] st.process_data s2).1
                  (bme68x_bsec_read_data E K cv ts [] st.process_data s2).2)).1
            n_samples :=
              (bsec_iot_loop_save E K save_intvl L.n_samples
                (bme68x_bsec_process_data E K
                  (bme68x_bsec_read_data E K cv ts [] st.process_data s2).1
                  (bme68x_bsec_read_data E K cv ts [] st.process_data s2).2)).2 } := rfl
  rw [hbody] at h
  cases htrig : bme68x_bsec_trigger_measurement E K fuel st s1 with
  | none => rw [htrig] at h; exact absurd h (by simp)
  | some s2 =>
    rw [htrig] at h
    simp only [Option.some.injEq] at h
    have q0 : quiet_since L.w s1 :=
      quiet_since_trans (quiet_since_call L.w _ _ (by rfl) (by rfl))
        (quiet_since_call s0 _ _ (by rfl) (by rfl))
    have q1 : quiet_since s1 s2 := trigger_measurement_quiet E K fuel st s1 s2 htrig
    have q2 := read_data_quiet E K cv ts [] st.process_data s2
    have q3 := process_data_quiet E K (bme68x_bsec_read_data E K cv ts [] st.process_data s2).1
      (bme68x_bsec_read_data E K cv ts [] st.process_data s2).2
    obtain ⟨l1, e1, a1⟩ := quiet_since_trans q0 (quiet_since_trans q1 (quiet_since_trans q2 q3))
    obtain ⟨e3, e4⟩ := loop_save_spec E K save_intvl L.n_samples
      (bme68x_bsec_process_data E K
        (bme68x_bsec_read_data E K cv ts [] st.process_data s2).1
        (bme68x_bsec_read_data E K cv ts [] st.process_data s2).2)
    obtain ⟨l2, e2, a2⟩ := loop_sleep_quiet E st.next_call
      (bsec_iot_loop_save E K save_intvl L.n_samples
        (bme68x_bsec_process_data E K
          (bme68x_bsec_read_data E K cv ts [] st.process_data s2).1
          (bme68x_bsec_read_data E K cv ts [] st.process_data s2).2)).1
    subst h
    refine ⟨bme68x_bsec_process_data E K
        (bme68x_bsec_read_data E K cv ts [] st.process_data s2).1
        (bme68x_bsec_read_data E K cv ts [] st.process_data s2).2, l1, l2, ?_, a1, a2, e4, ?_⟩
    · rw [e2, e3, e1]
      simp only [List.append_assoc]
    · show (match bme68x_bsec_trigger_measurement E K fuel st s1 with
        | none => none
        | some s2 =>
          some (bme68x_bsec_process_data E K
            (bme68x_bsec_read_data E K cv ts [] st.process_data s2).1
            (bme68x_bsec_read_data E K cv ts [] st.process_data s2).2)) = _
      rw [htrig]

theorem callsSince_append {σ F : Type} (s t u : State σ F) (l1 l2 : List (Call F))
    (h1 : t.trace = s.trace ++ l1) (h2 : u.trace = t.trace ++ l2) :
    callsSince s t = l1 ∧ callsSince t u = l2 ∧ callsSince s u = l1 ++ l2 :=
  ⟨callsSince_of_trace_eq s t l1 h1, callsSince_of_trace_eq t u l2 h2,
    callsSince_of_trace_eq s u (l1 ++ l2) (by rw [h2, h1, List.append_assoc])⟩

/-- One iteration only appends to the trace. -/
theorem loop_body_trace {σ R F : Type} [Zero F] (E : Env σ R F) (K : Consts)
    (cv : SignalConv R F) (fuel save_intvl : Nat) (L L1 : LoopState σ F)
    (h : bsec_iot_loop_body E K cv fuel save_intvl L = some L1) :
    ∃ l : List (Call F), L1.w.trace = L.w.trace ++ l := by
  obtain ⟨_, l1, l2, e, -⟩ := loop_body_spec E K cv fuel save_intvl L L1 h
  exact ⟨_, e⟩

/-- A run of iterations only appends to the trace. -/
theorem loop_trace {σ R F : Type} [Zero F] (E : Env σ R F) (K : Consts)
    (cv : SignalConv R F) (fuel save_intvl : Nat) (N : Nat) :
    ∀ L L1 : LoopState σ F, bsec_iot_loop E K cv fuel save_intvl N L = some L1 →
      ∃ l : List (Call F), L1.w.trace = L.w.trace ++ l := by
  induction N with
  | zero =>
    intro L L1 h
    simp only [bsec_iot_loop, Option.some.injEq] at h
    subst h
    exact ⟨[], by simp⟩
  | succ n ih =>
    intro L L1 h
    simp only [bsec_iot_loop] at h
    cases hb : bsec_iot_loop_body E K cv fuel save_intvl L with
    | none => rw [hb] at h; exact absurd h (by simp)
    | some L2 =>
      rw [hb] at h
      obtain ⟨la, ea⟩ := loop_body_trace E K cv fuel save_intvl L L2 hb
      obtain ⟨lb, eb⟩ := ih L2 L1 h
      exact ⟨la ++ lb, by rw [eb, ea, List.append_assoc]⟩

/-- Persistence calls of one iteration: the engine state is requested exactly
when the incremented counter has reached the interval, it is saved when the
engine reports OK, and a save resets the counter. -/
theorem loop_body_persistence {σ R F : Type} [Zero F] (E : Env σ R F) (K : Consts)
    (cv : SignalConv R F) (fuel save_intvl : Nat) (L L1 : LoopState σ F)
    (h : bsec_iot_loop_body E K cv fuel save_intvl L = some L1) :
    ((L.n_samples + 1) % 2 ^ 32 ≥ save_intvl →
      (∃ c ∈ callsSince L.w L1.w, c.is_get_state = true) ∧
      ((∀ a b c e, (E.bsec_get_state a b c e).1.1 = K.BSEC_OK) →
        ∃ c ∈ callsSince L.w L1.w, c.is_state_save = true)) ∧
    ((∃ c ∈ callsSince L.w L1.w, c.is_state_save = true ∨ c.is_get_state = true) →
      (L.n_samples + 1) % 2 ^ 32 ≥ save_intvl) ∧
    L1.n_samples =
      if (L.n_samples + 1) % 2 ^ 32 ≥ save_intvl then 0 else (L.n_samples + 1) % 2 ^ 32 := by
  obtain ⟨s3, l1, l2, e, a1, a2, hn, -⟩ := loop_body_spec E K cv fuel save_intvl L L1 h
  rw [callsSince_of_trace_eq _ _ _ e]
  refine ⟨?_, ?_, hn⟩
  · intro hge
    rw [if_pos hge]
    refine ⟨⟨.bsec_get_state 0 K.BSEC_MAX_STATE_BLOB_SIZE K.BSEC_MAX_WORKBUFFER_SIZE,
      by simp, rfl⟩, ?_⟩
    intro hok
    rw [if_pos (hok _ _ _ _)]
    exact ⟨.state_save
      (E.bsec_get_state 0 K.BSEC_MAX_STATE_BLOB_SIZE K.BSEC_MAX_WORKBUFFER_SIZE s3.env).1.2.1
      (E.bsec_get_state 0 K.BSEC_MAX_STATE_BLOB_SIZE K.BSEC_MAX_WORKBUFFER_SIZE s3.env).1.2.2,
      by simp, rfl⟩
  · rintro ⟨c, hc, hpers⟩
    by_contra hlt
    rw [if_neg hlt] at hc
    simp only [List.nil_append, List.mem_append] at hc
    rcases hc with hc | hc
    · have := a1 c hc
      rcases hpers with hp | hp <;> simp_all
    · have := a2 c hc
      rcases hpers with hp | hp <;> simp_all

/-- With a sensor that never reports forced mode the trigger returns, whatever
the fuel. -/
theorem trigger_measurement_returns_when_idle {σ R F : Type} (E : Env σ R F) (K : Consts)
    (fuel : Nat) (st : bsec_bme_settings_t) (s : State σ F)
    (hidle : ∀ dev e, (E.bme68x_get_op_mode dev e).1.2 ≠ K.BME68X_FORCED_MODE) :
    ∃ t, bme68x_bsec_trigger_measurement E K fuel st s = some t := by
  simp only [bme68x_bsec_trigger_measurement]
  cases fuel <;> simp [poll_op_mode, hidle]

/-- With a sensor that never reports forced mode every run of iterations
completes, whatever the fuel. -/
theorem loop_returns_when_idle {σ R F : Type} [Zero F] (E : Env σ R F) (K : Consts)
    (cv : SignalConv R F) (fuel save_intvl : Nat)
    (hidle : ∀ dev e, (E.bme68x_get_op_mode dev e).1.2 ≠ K.BME68X_FORCED_MODE) (N : Nat) :
    ∀ L : LoopState σ F, ∃ L1, bsec_iot_loop E K cv fuel save_intvl N L = some L1 := by
  induction N with
  | zero => intro L; exact ⟨L, rfl⟩
  | succ n ih =>
    intro L
    obtain ⟨t, ht⟩ := trigger_measurement_returns_when_idle E K fuel
      (E.bsec_sensor_control (wrap64 ((E.get_timestamp_us L.w.env).1 * 1000))
        (L.w.call .get_timestamp_us (E.get_timestamp_us L.w.env).2).env).1.2
      ((L.w.call .get_timestamp_us (E.get_timestamp_us L.w.env).2).call
        (.bsec_sensor_control (wrap64 ((E.get_timestamp_us L.w.env).1 * 1000)))
        (E.bsec_sensor_control (wrap64 ((E.get_timestamp_us L.w.env).1 * 1000))
          (L.w.call .get_timestamp_us (E.get_timestamp_us L.w.env).2).env).2) hidle
    simp only [bsec_iot_loop, bsec_iot_loop_body, ht]
    exact ih _

/-- Claim C5 fails as stated: with a save interval of 1 and one iteration in
which `bsec_get_state` reports an error (status 1), the iteration completes and
`state_save` is not called. -/
theorem loop_no_save_when_get_state_fails :
    (1 ≤ 1) ∧
    (bsec_iot_loop (simEnv { simCfg with get_state_status := 1 }) vendorConsts simConv 10 1 1
        { w := simState, n_samples := 0 }).map
      (fun L => (callsSince simState L.w).any Call.is_state_save) = some false := by
  decide

/-! ## Output demultiplexer: the named quantities -/

/-- A local that the loop body sets to `v o` exactly for the outputs with
identifier `id` holds, after the loop, `v` of the last such output, or its
initial value when there is none. -/
theorem foldl_demux_step_field {F α : Type} (g : output_ready_args F → α)
    (v : bsec_output_t F → α) (id : bsec_virtual_sensor_t)
    (hstep : ∀ acc o, g (demux_step acc o) = if o.sensor_id = id then v o else g acc)
    (outs : List (bsec_output_t F)) (acc : output_ready_args F) :
    g (outs.foldl demux_step acc) =
      match last_output_with id outs with
      | some o => v o
      | none => g acc := by
  unfold last_output_with
  induction outs using List.reverseRecOn with
  | nil => simp
  | append_singleton l o ih =>
    rw [List.foldl_append, List.foldl_cons, List.foldl_nil, hstep, List.filter_append]
    by_cases h : o.sensor_id = id
    · simp [h, List.filter_cons]
    · simp [h, List.filter_cons, ih]

/-- An output with an unrecognised identifier leaves every local unchanged. -/
theorem demux_step_unrecognised {F : Type} (acc : output_ready_args F) (o : bsec_output_t F)
    (h : is_recognised_output o.sensor_id = false) : demux_step acc o = acc := by
  unfold demux_step
  cases hid : o.sensor_id <;> simp_all [is_recognised_output]

/-- Dropping the outputs with an unrecognised identifier from a batch does not
change the locals after the loop. -/
theorem foldl_demux_step_filter {F : Type} (outs : List (bsec_output_t F)) :
    ∀ acc : output_ready_args F,
      outs.foldl demux_step acc =
        (outs.filter fun o => is_recognised_output o.sensor_id).foldl demux_step acc := by
  induction outs with
  | nil => intro acc; rfl
  | cons o rest ih =>
    intro acc
    by_cases h : is_recognised_output o.sensor_id = true
    · simp only [List.foldl_cons, List.filter_cons, h, if_true]
      exact ih _
    · have h' : is_recognised_output o.sensor_id = false := by simpa using h
      simp only [List.foldl_cons, List.filter_cons, h', Bool.false_eq_true, if_false,
        demux_step_unrecognised acc o h']
      exact ih _

/-- Claim C12: for every batch of outputs returned by the engine for a non-empty
input batch, each of the 12 named quantities passed to `output_ready` equals the
signal of the last output in the batch carrying that quantity's identifier (with
the paired accuracy taken from the same output for IAQ, static IAQ, CO2
equivalent, breath-VOC equivalent, compensated gas and gas percentage) or zero
when no output carries it, and an output with an unrecognised identifier changes
no argument of the callback: the arguments are those obtained from the batch
without its unrecognised outputs. -/
theorem process_data_quantities {σ R F : Type} [Zero F] (E : Env σ R F) (K : Consts)
    (inputs : List (bsec_input_t F)) (s : State σ F) (hpos : inputs.length > 0) :
    let outs := (E.bsec_do_steps inputs K.BSEC_NUMBER_OUTPUTS s.env).1.2
    ∃ args : output_ready_args F,
      callsSince s (bme68x_bsec_process_data E K inputs s) =
        [.bsec_do_steps inputs K.BSEC_NUMBER_OUTPUTS, .output_ready args] ∧
      args.iaq = last_signal .BSEC_OUTPUT_IAQ outs ∧
      args.iaq_accuracy = last_accuracy .BSEC_OUTPUT_IAQ outs ∧
      args.static_iaq = last_signal .BSEC_OUTPUT_STATIC_IAQ outs ∧
      args.static_iaq_accuracy = last_accuracy .BSEC_OUTPUT_STATIC_IAQ outs ∧
      args.co2_equivalent = last_signal .BSEC_OUTPUT_CO2_EQUIVALENT outs ∧
      args.co2_accuracy = last_accuracy .BSEC_OUTPUT_CO2_EQUIVALENT outs ∧
      args.breath_voc_equivalent = last_signal .BSEC_OUTPUT_BREATH_VOC_EQUIVALENT outs ∧
      args.breath_voc_accuracy = last_accuracy .BSEC_OUTPUT_BREATH_VOC_EQUIVALENT outs ∧
      args.temp = last_signal .BSEC_OUTPUT_SENSOR_HEAT_COMPENSATED_TEMPERATURE outs ∧
      args.raw_pressure = last_signal .BSEC_OUTPUT_RAW_PRESSURE outs ∧
      args.humidity = last_signal .BSEC_OUTPUT_SENSOR_HEAT_COMPENSATED_HUMIDITY outs ∧
      args.raw_gas = last_signal .BSEC_OUTPUT_RAW_GAS outs ∧
      args.raw_temp = last_signal .BSEC_OUTPUT_RAW_TEMPERATURE outs ∧
      args.raw_humidity = last_signal .BSEC_OUTPUT_RAW_HUMIDITY outs ∧
      args.comp_gas_value = last_signal .BSEC_OUTPUT_COMPENSATED_GAS outs ∧
      args.comp_gas_accuracy = last_accuracy .BSEC_OUTPUT_COMPENSATED_GAS outs ∧
      args.gas_percentage = last_signal .BSEC_OUTPUT_GAS_PERCENTAGE outs ∧
      args.gas_percentage_acccuracy = last_accuracy .BSEC_OUTPUT_GAS_PERCENTAGE outs ∧
      args =
        (outs.filter fun o => is_recognised_output o.sensor_id).foldl demux_step
          { process_data_locals K with
            bsec_status := (E.bsec_do_steps inputs K.BSEC_NUMBER_OUTPUTS s.env).1.1 } := by
  intro outs
  refine ⟨outs.foldl demux_step
    { process_data_locals K with
      bsec_status := (E.bsec_do_steps inputs K.BSEC_NUMBER_OUTPUTS s.env).1.1 }, ?_, ?_, ?_, ?_, ?_, ?_, ?_, ?_, ?_, ?_, ?_, ?_, ?_, ?_, ?_, ?_, ?_, ?_, ?_, ?_⟩
  · rw [process_data_calls, if_pos hpos]
  · exact foldl_demux_step_field (fun a => a.iaq) (fun o => o.signal) .BSEC_OUTPUT_IAQ
      (by intro acc o; unfold demux_step; cases h : o.sensor_id <;> simp) outs _
  · exact foldl_demux_step_field (fun a => a.iaq_accuracy) (fun o => o.accuracy) .BSEC_OUTPUT_IAQ
      (by intro acc o; unfold demux_step; cases h : o.sensor_id <;> simp) outs _
  · exact foldl_demux_step_field (fun a => a.static_iaq) (fun o => o.signal) .BSEC_OUTPUT_STATIC_IAQ
      (by intro acc o; unfold demux_step; cases h : o.sensor_id <;> simp) outs _
  · exact foldl_demux_step_field (fun a => a.static_iaq_accuracy) (fun o => o.accuracy) .BSEC_OUTPUT_STATIC_IAQ
      (by intro acc o; unfold demux_step; cases h : o.sensor_id <;> simp) outs _
  · exact foldl_demux_step_field (fun a => a.co2_equivalent) (fun o => o.signal) .BSEC_OUTPUT_CO2_EQUIVALENT
      (by intro acc o; unfold demux_step; cases h : o.sensor_id <;> simp) outs _
  · exact foldl_demux_step_field (fun a => a.co2_accuracy) (fun o => o.accuracy) .BSEC_OUTPUT_CO2_EQUIVALENT
      (by intro acc o; unfold demux_step; cases h : o.sensor_id <;> simp) outs _
  · exact foldl_demux_step_field (fun a => a.breath_voc_equivalent) (fun o => o.signal) .BSEC_OUTPUT_BREATH_VOC_EQUIVALENT
      (by intro acc o; unfold demux_step; cases h : o.sensor_id <;> simp) outs _
  · exact foldl_demux_step_field (fun a => a.breath_voc_accuracy) (fun o => o.accuracy) .BSEC_OUTPUT_BREATH_VOC_EQUIVALENT
      (by intro acc o; unfold demux_step; cases h : o.sensor_id <;> simp) outs _
  · exact foldl_demux_step_field (fun a => a.temp) (fun o => o.signal) .BSEC_OUTPUT_SENSOR_HEAT_COMPENSATED_TEMPERATURE
      (by intro acc o; unfold demux_step; cases h : o.sensor_id <;> simp) outs _
  · exact foldl_demux_step_field (fun a => a.raw_pressure) (fun o => o.signal) .BSEC_OUTPUT_RAW_PRESSURE
      (by intro acc o; unfold demux_step; cases h : o.sensor_id <;> simp) outs _
  · exact foldl_demux_step_field (fun a => a.humidity) (fun o => o.signal) .BSEC_OUTPUT_SENSOR_HEAT_COMPENSATED_HUMIDITY
      (by intro acc o; unfold demux_step; cases h : o.sensor_id <;> simp) outs _
  · exact foldl_demux_step_field (fun a => a.raw_gas) (fun o => o.signal) .BSEC_OUTPUT_RAW_GAS
      (by intro acc o; unfold demux_step; cases h : o.sensor_id <;> simp) outs _
  · exact foldl_demux_step_field (fun a => a.raw_temp) (fun o => o.signal) .BSEC_OUTPUT_RAW_TEMPERATURE
      (by intro acc o; unfold demux_step; cases h : o.sensor_id <;> simp) outs _
  · exact foldl_demux_step_field (fun a => a.raw_humidity) (fun o => o.signal) .BSEC_OUTPUT_RAW_HUMIDITY
      (by intro acc o; unfold demux_step; cases h : o.sensor_id <;> simp) outs _
  · exact foldl_demux_step_field (fun a => a.comp_gas_value) (fun o => o.signal) .BSEC_OUTPUT_COMPENSATED_GAS
      (by intro acc o; unfold demux_step; cases h : o.sensor_id <;> simp) outs _
  · exact foldl_demux_step_field (fun a => a.comp_gas_accuracy) (fun o => o.accuracy) .BSEC_OUTPUT_COMPENSATED_GAS
      (by intro acc o; unfold demux_step; cases h : o.sensor_id <;> simp) outs _
  · exact foldl_demux_step_field (fun a => a.gas_percentage) (fun o => o.signal) .BSEC_OUTPUT_GAS_PERCENTAGE
      (by intro acc o; unfold demux_step; cases h : o.sensor_id <;> simp) outs _
  · exact foldl_demux_step_field (fun a => a.gas_percentage_acccuracy) (fun o => o.accuracy) .BSEC_OUTPUT_GAS_PERCENTAGE
      (by intro acc o; unfold demux_step; cases h : o.sensor_id <;> simp) outs _
  · exact foldl_demux_step_filter outs _

/-- Claim C12 at a concrete cycle: the engine returns `simOutputs`; the callback
gets the signal and accuracy of the second IAQ output, the raw pressure, and
zero for the raw gas resistance, which no output carries. -/
theorem process_data_quantities_witness :
    ∃ args : output_ready_args Int,
      callsSince simState
          (bme68x_bsec_process_data (simEnv { simCfg with outputs := simOutputs }) vendorConsts
            simInputs simState) =
        [.bsec_do_steps simInputs 14, .output_ready args] ∧
      args.iaq = 75 ∧ args.iaq_accuracy = 2 ∧ args.raw_pressure = 100325 ∧ args.raw_gas = 0 :=
  match process_data_quantities (simEnv { simCfg with outputs := simOutputs }) vendorConsts
      simInputs simState (by decide) with
  | ⟨args, hcalls, hiaq, hacc, _, _, _, _, _, _, _, hpres, _, hgas, _⟩ =>
    ⟨args, hcalls, hiaq.trans (by decide), hacc.trans (by decide), hpres.trans (by decide),
      hgas.trans (by decide)⟩

/-! ## Acquisition trigger: sleeps and polls -/

/-- The polling loop, entered after poll number `k` with the mode that poll
reported: if the next `n` polls from `k` on report forced mode and poll `k + n`
reports another mode, the loop ends (given fuel for `n` rounds) after exactly `n`
rounds of one sleep and one poll. -/
theorem poll_op_mode_rounds {σ R F : Type} (E : Env σ R F) (K : Consts) (e0 : σ) (n : Nat) :
    ∀ (fuel k : Nat) (s : State σ F), n ≤ fuel →
      s.env = env_after_poll E s.bme68x k e0 →
      (∀ j < n, polled_mode E s.bme68x (k + j) e0 = K.BME68X_FORCED_MODE) →
      polled_mode E s.bme68x (k + n) e0 ≠ K.BME68X_FORCED_MODE →
      ∃ t, poll_op_mode E K fuel (polled_mode E s.bme68x k e0) s = some t ∧
        t.trace = s.trace ++ poll_rounds s.bme68x.intf_ptr n := by
  induction n with
  | zero =>
    intro fuel k s _ _ _ hstop
    refine ⟨s, ?_, by simp [poll_rounds]⟩
    have hstop' : polled_mode E s.bme68x k e0 ≠ K.BME68X_FORCED_MODE := by simpa using hstop
    cases fuel <;> simp [poll_op_mode, hstop']
  | succ n ih =>
    intro fuel k s hfuel henv hforced hstop
    obtain ⟨fuel, rfl⟩ : ∃ f, fuel = f + 1 := ⟨fuel - 1, by omega⟩
    have h0 : polled_mode E s.bme68x k e0 = K.BME68X_FORCED_MODE := by
      simpa using hforced 0 (by omega)
    have hmode : (E.bme68x_get_op_mode s.bme68x (E.sleep 5000 s.bme68x.intf_ptr s.env)).1.2 =
        polled_mode E s.bme68x (k + 1) e0 := by
      simp [polled_mode, henv]
    obtain ⟨t, ht, htr⟩ := ih fuel (k + 1)
      ((s.call (.sleep 5000 s.bme68x.intf_ptr) (E.sleep 5000 s.bme68x.intf_ptr s.env)).call
        .bme68x_get_op_mode
        (E.bme68x_get_op_mode s.bme68x (E.sleep 5000 s.bme68x.intf_ptr s.env)).2)
      (by omega) (by simp [State.call, env_after_poll, henv])
      (by
        intro j hj
        have := hforced (j + 1) (by omega)
        simpa [State.call, Nat.add_assoc, Nat.add_comm 1 j] using this)
      (by simpa [State.call, Nat.add_assoc, Nat.add_comm 1 n] using hstop)
    refine ⟨t, ?_, ?_⟩
    · simp only [poll_op_mode, h0, if_true]
      simpa [State.call, hmode] using ht
    · simpa [State.call, poll_rounds] using htr

/-- With `trigger_measurement` true the trigger makes the three configuration
calls, asks for the measurement duration, sleeps that duration reduced to 16 bits
(the `uint16_t` local `meas_period`), polls the operation mode, and then makes
exactly one 5000 microsecond sleep and one more poll for every poll that reports
forced mode, stopping at the first poll that reports another mode.  Here the
first `n` polls report forced mode, poll `n` reports another mode and the fuel
allows `n` rounds. -/
theorem trigger_measurement_trace {σ R F : Type} (E : Env σ R F) (K : Consts) (fuel n : Nat)
    (st : bsec_bme_settings_t) (s : State σ F) (htrig : st.trigger_measurement ≠ 0) :
    let conf : bme68x_conf :=
      { os_hum := st.humidity_oversampling, os_pres := st.pressure_oversampling,
        os_temp := st.temperature_oversampling }
    let heatr : bme68x_heatr_conf :=
      { enable := st.run_gas, heatr_temp := st.heater_temperature,
        heatr_dur := st.heater_duration }
    let e1 := (E.bme68x_set_conf conf s.bme68x s.env).2
    let e2 := (E.bme68x_set_heatr_conf K.BME68X_FORCED_MODE heatr s.bme68x e1).2
    let e3 := (E.bme68x_set_op_mode K.BME68X_FORCED_MODE s.bme68x e2).2
    let dur := (E.bme68x_get_meas_dur K.BME68X_FORCED_MODE conf s.bme68x e3).1
    let e4 := (E.bme68x_get_meas_dur K.BME68X_FORCED_MODE conf s.bme68x e3).2
    let e5 := E.sleep (dur % 2 ^ 16) s.bme68x.intf_ptr e4
    n ≤ fuel →
    (∀ j < n, polled_mode E s.bme68x j e5 = K.BME68X_FORCED_MODE) →
    polled_mode E s.bme68x n e5 ≠ K.BME68X_FORCED_MODE →
    ∃ t, bme68x_bsec_trigger_measurement E K fuel st s = some t ∧
      callsSince s t =
        [.bme68x_set_conf conf, .bme68x_set_heatr_conf K.BME68X_FORCED_MODE heatr,
         .bme68x_set_op_mode K.BME68X_FORCED_MODE,
         .bme68x_get_meas_dur K.BME68X_FORCED_MODE conf,
         .sleep (dur % 2 ^ 16) s.bme68x.intf_ptr, .bme68x_get_op_mode] ++
        poll_rounds s.bme68x.intf_ptr n := by
  intro conf heatr e1 e2 e3 dur e4 e5 hfuel hforced hstop
  have hmod : dur % 2 ^ 16 % 2 ^ 32 = dur % 2 ^ 16 :=
    Nat.mod_eq_of_lt (lt_trans (Nat.mod_lt _ (by norm_num)) (by norm_num))
  let S : State σ F :=
    { env := env_after_poll E s.bme68x 0 e5, bme68x := s.bme68x,
      bme68x_temperature_offset_g := s.bme68x_temperature_offset_g,
      trace := s.trace ++
        [.bme68x_set_conf conf, .bme68x_set_heatr_conf K.BME68X_FORCED_MODE heatr,
         .bme68x_set_op_mode K.BME68X_FORCED_MODE,
         .bme68x_get_meas_dur K.BME68X_FORCED_MODE conf,
         .sleep (dur % 2 ^ 16) s.bme68x.intf_ptr, .bme68x_get_op_mode] }
  have hdef : bme68x_bsec_trigger_measurement E K fuel st s =
      poll_op_mode E K fuel (polled_mode E S.bme68x 0 e5) S := by
    simp only [bme68x_bsec_trigger_measurement, htrig, ne_eq, not_false_eq_true, if_true,
      State.call, hmod, polled_mode, env_after_poll, S, e5, e4, dur, e3, e2, e1, conf, heatr,
      List.append_assoc, List.singleton_append, List.cons_append, List.nil_append]
  obtain ⟨t, ht, htr⟩ := poll_op_mode_rounds E K e5 n fuel 0 S hfuel rfl
    (by intro j hj; simpa using hforced j hj) (by simpa using hstop)
  refine ⟨t, by rw [hdef]; exact ht, ?_⟩
  apply callsSince_of_trace_eq
  rw [htr]
  simp [S]

/-- Claim C11 at the failing input: all three oversampling settings are 16x
(code 5), for which the driver reports a measurement duration of 99517
microseconds, and the sensor is in forced mode for one poll.  After commanding
the acquisition the trigger sleeps 33981 microseconds, which is 99517 modulo
65536 and not the reported duration; the polling part is as claimed (one 5000
microsecond sleep for the one poll that reports forced mode). -/
theorem trigger_measurement_sleep_truncated :
    (bme68x_bsec_trigger_measurement (simEnv { simCfg with meas_dur := 99517 }) vendorConsts 10
        { simSettings with
          pressure_oversampling := 5, temperature_oversampling := 5,
          humidity_oversampling := 5 }
        simState).map (callsSince simState) =
      some
        [.bme68x_set_conf { os_hum := 5, os_pres := 5, os_temp := 5 },
         .bme68x_set_heatr_conf 1 { enable := 1, heatr_temp := 320, heatr_dur := 197 },
         .bme68x_set_op_mode 1,
         .bme68x_get_meas_dur 1 { os_hum := 5, os_pres := 5, os_temp := 5 },
         .sleep 33981 0, .bme68x_get_op_mode, .sleep 5000 0, .bme68x_get_op_mode] ∧
    ((simEnv { simCfg with meas_dur := 99517 }).bme68x_get_meas_dur 1
        { os_hum := 5, os_pres := 5, os_temp := 5 } simState.bme68x { clock := 0, busy := 1 }).1 =
      99517 := by
  decide

/-! ## Acquisition trigger: the polling in full -/

/-- The trigger is its set-up part followed by a first poll and the polling
loop. -/
theorem trigger_measurement_eq {σ R F : Type} (E : Env σ R F) (K : Consts) (fuel : Nat)
    (st : bsec_bme_settings_t) (s : State σ F) :
    bme68x_bsec_trigger_measurement E K fuel st s =
      poll_op_mode E K fuel
        (E.bme68x_get_op_mode (trigger_setup E K st s).bme68x (trigger_setup E K st s).env).1.2
        ((trigger_setup E K st s).call .bme68x_get_op_mode
          (E.bme68x_get_op_mode (trigger_setup E K st s).bme68x
            (trigger_setup E K st s).env).2) := rfl

theorem trigger_setup_bme68x {σ R F : Type} (E : Env σ R F) (K : Consts)
    (st : bsec_bme_settings_t) (s : State σ F) : (trigger_setup E K st s).bme68x = s.bme68x := by
  unfold trigger_setup
  split_ifs <;> simp [State.call]

/-- The polling loop, entered after poll number `k` with the mode that poll
reported: if it returns, it has made exactly `n` rounds of one sleep and one
poll, where the `n` polls from `k` on reported forced mode and poll `k + n`
reported another mode. -/
theorem poll_op_mode_rounds_of_some {σ R F : Type} (E : Env σ R F) (K : Consts) (e0 : σ)
    (fuel : Nat) :
    ∀ (k : Nat) (s t : State σ F), s.env = env_after_poll E s.bme68x k e0 →
      poll_op_mode E K fuel (polled_mode E s.bme68x k e0) s = some t →
      ∃ n, n ≤ fuel ∧
        (∀ j < n, polled_mode E s.bme68x (k + j) e0 = K.BME68X_FORCED_MODE) ∧
        polled_mode E s.bme68x (k + n) e0 ≠ K.BME68X_FORCED_MODE ∧
        t.trace = s.trace ++ poll_rounds s.bme68x.intf_ptr n := by
  induction fuel with
  | zero =>
    intro k s t _ h
    simp only [poll_op_mode] at h
    split_ifs at h with hm
    simp only [Option.some.injEq] at h
    subst h
    exact ⟨0, le_refl _, by intro j hj; omega, by simpa using hm, by simp [poll_rounds]⟩
  | succ fuel ih =>
    intro k s t henv h
    simp only [poll_op_mode] at h
    split_ifs at h with hm
    · have hmode : (E.bme68x_get_op_mode s.bme68x (E.sleep 5000 s.bme68x.intf_ptr s.env)).1.2 =
          polled_mode E s.bme68x (k + 1) e0 := by
        simp [polled_mode, henv]
      obtain ⟨n, hn, hforced, hstop, htr⟩ := ih (k + 1)
        ((s.call (.sleep 5000 s.bme68x.intf_ptr) (E.sleep 5000 s.bme68x.intf_ptr s.env)).call
          .bme68x_get_op_mode
          (E.bme68x_get_op_mode s.bme68x (E.sleep 5000 s.bme68x.intf_ptr s.env)).2) t
        (by simp [State.call, env_after_poll, henv])
        (by simpa [State.call, hmode] using h)
      refine ⟨n + 1, by omega, ?_, ?_, ?_⟩
      · intro j hj
        rcases j with _ | j
        · simpa using hm
        · have := hforced j (by omega)
          simpa [State.call, Nat.add_assoc, Nat.add_comm 1 j] using this
      · simpa [State.call, Nat.add_assoc, Nat.add_comm 1 n] using hstop
      · simpa [State.call, poll_rounds] using htr
    · simp only [Option.some.injEq] at h
      subst h
      exact ⟨0, Nat.zero_le _, by intro j hj; omega, by simpa using hm, by simp [poll_rounds]⟩

/-- The acquisition trigger in full: when the first `n` polls report forced mode
and poll `n` reports another mode, the trigger returns (given fuel for `n`
rounds), and its calls are those of the set-up part, one poll, and `n` rounds of
one 5000 microsecond sleep and one poll. -/
theorem trigger_measurement_polls {σ R F : Type} (E : Env σ R F) (K : Consts) (fuel n : Nat)
    (st : bsec_bme_settings_t) (s : State σ F) (hfuel : n ≤ fuel)
    (hforced : ∀ j < n,
      polled_mode E s.bme68x j (trigger_setup E K st s).env = K.BME68X_FORCED_MODE)
    (hstop : polled_mode E s.bme68x n (trigger_setup E K st s).env ≠ K.BME68X_FORCED_MODE) :
    ∃ t, bme68x_bsec_trigger_measurement E K fuel st s = some t ∧
      t.trace = (trigger_setup E K st s).trace ++
        .bme68x_get_op_mode :: poll_rounds s.bme68x.intf_ptr n := by
  have hdev := trigger_setup_bme68x E K st s
  obtain ⟨t, ht, htr⟩ := poll_op_mode_rounds E K (trigger_setup E K st s).env n fuel 0
    ((trigger_setup E K st s).call .bme68x_get_op_mode
      (E.bme68x_get_op_mode (trigger_setup E K st s).bme68x (trigger_setup E K st s).env).2)
    hfuel (by simp [State.call, env_after_poll])
    (by intro j hj; simpa [State.call, hdev] using hforced j hj)
    (by simpa [State.call, hdev] using hstop)
  refine ⟨t, ?_, ?_⟩
  · rw [trigger_measurement_eq]
    simpa [State.call, polled_mode] using ht
  · simpa [State.call, hdev] using htr

/-- The converse: when the trigger returns, the polls reported forced mode `n`
times and then another mode, for some `n` within the fuel, and the calls are
those of the set-up part, one poll, and `n` rounds of one sleep and one poll. -/
theorem trigger_measurement_polls_of_some {σ R F : Type} (E : Env σ R F) (K : Consts)
    (fuel : Nat) (st : bsec_bme_settings_t) (s t : State σ F)
    (h : bme68x_bsec_trigger_measurement E K fuel st s = some t) :
    ∃ n, n ≤ fuel ∧
      (∀ j < n,
        polled_mode E s.bme68x j (trigger_setup E K st s).env = K.BME68X_FORCED_MODE) ∧
      polled_mode E s.bme68x n (trigger_setup E K st s).env ≠ K.BME68X_FORCED_MODE ∧
      t.trace = (trigger_setup E K st s).trace ++
        .bme68x_get_op_mode :: poll_rounds s.bme68x.intf_ptr n := by
  have hdev := trigger_setup_bme68x E K st s
  rw [trigger_measurement_eq] at h
  obtain ⟨n, hn, hforced, hstop, htr⟩ := poll_op_mode_rounds_of_some E K
    (trigger_setup E K st s).env fuel 0
    ((trigger_setup E K st s).call .bme68x_get_op_mode
      (E.bme68x_get_op_mode (trigger_setup E K st s).bme68x (trigger_setup E K st s).env).2) t
    (by simp [State.call, env_after_poll])
    (by simpa [State.call, polled_mode] using h)
  refine ⟨n, hn, ?_, ?_, ?_⟩
  · intro j hj
    simpa [State.call, hdev] using hforced j hj
  · simpa [State.call, hdev] using hstop
  · simpa [State.call, hdev] using htr

/-- Claim C7, as amended: for every sensor settings value with
`trigger_measurement` false, `bme68x_bsec_trigger_measurement` makes no
`set_conf`, `set_heatr_conf`, `set_op_mode` or `get_meas_dur` call and no
measurement-duration sleep: it polls `bme68x_get_op_mode` first, and makes
exactly one 5000 microsecond sleep followed by one more poll after each poll that
reports forced mode, stopping at the first poll that reports another mode; when
the first poll reports a mode other than forced mode it returns at once, having
made that single poll and no sleep.  The first part gives the result for every
number `n` of polls that report forced mode (the fuel allowing `n` rounds), the
second says that every run that returns is of this form. -/
theorem trigger_measurement_not_requested {σ R F : Type} (E : Env σ R F) (K : Consts)
    (fuel : Nat) (st : bsec_bme_settings_t) (s : State σ F) (hst : st.trigger_measurement = 0) :
    (∀ n, n ≤ fuel →
      (∀ j < n, polled_mode E s.bme68x j s.env = K.BME68X_FORCED_MODE) →
      polled_mode E s.bme68x n s.env ≠ K.BME68X_FORCED_MODE →
      ∃ t, bme68x_bsec_trigger_measurement E K fuel st s = some t ∧
        callsSince s t = .bme68x_get_op_mode :: poll_rounds s.bme68x.intf_ptr n) ∧
    (∀ t, bme68x_bsec_trigger_measurement E K fuel st s = some t →
      ∃ n, n ≤ fuel ∧
        (∀ j < n, polled_mode E s.bme68x j s.env = K.BME68X_FORCED_MODE) ∧
        polled_mode E s.bme68x n s.env ≠ K.BME68X_FORCED_MODE ∧
        callsSince s t = .bme68x_get_op_mode :: poll_rounds s.bme68x.intf_ptr n) ∧
    ((E.bme68x_get_op_mode s.bme68x s.env).1.2 ≠ K.BME68X_FORCED_MODE →
      bme68x_bsec_trigger_measurement E K fuel st s =
        some (s.call .bme68x_get_op_mode (E.bme68x_get_op_mode s.bme68x s.env).2)) := by
  have hsetup : trigger_setup E K st s = s := by simp [trigger_setup, hst]
  refine ⟨?_, ?_, ?_⟩
  · intro n hfuel hforced hstop
    obtain ⟨t, ht, htr⟩ := trigger_measurement_polls E K fuel n st s hfuel
      (by rw [hsetup]; exact hforced) (by rw [hsetup]; exact hstop)
    rw [hsetup] at htr
    exact ⟨t, ht, callsSince_of_trace_eq s t _ htr⟩
  · intro t h
    obtain ⟨n, hn, hforced, hstop, htr⟩ := trigger_measurement_polls_of_some E K fuel st s t h
    rw [hsetup] at hforced hstop htr
    exact ⟨n, hn, hforced, hstop, callsSince_of_trace_eq s t _ htr⟩
  · intro hmode
    simp only [bme68x_bsec_trigger_measurement, hst, ne_eq, not_true_eq_false, if_false]
    cases fuel <;> simp [poll_op_mode, hmode]

/-- Claim C7, amended statement at a concrete cycle: the sensor is still in
forced mode for one poll, so the trigger polls, sleeps 5000 microseconds once,
polls again and returns. -/
theorem trigger_measurement_not_requested_witness :
    ∃ t, bme68x_bsec_trigger_measurement (simEnv simCfg) vendorConsts 10
          { simSettings with trigger_measurement := 0 }
          { simState with env := { clock := 0, busy := 1 } } = some t ∧
      callsSince { simState with env := { clock := 0, busy := 1 } } t =
        [.bme68x_get_op_mode, .sleep 5000 0, .bme68x_get_op_mode] :=
  (trigger_measurement_not_requested (simEnv simCfg) vendorConsts 10
    { simSettings with trigger_measurement := 0 }
    { simState with env := { clock := 0, busy := 1 } } rfl).1 1 (by decide) (by decide)
    (by decide)

/-! ## State persistence over a run -/

/-- In an iteration whose incremented counter has reached the interval, the state
is saved when the `bsec_get_state` call of that iteration reports OK. -/
theorem loop_body_save_call {σ R F : Type} [Zero F] (E : Env σ R F) (K : Consts)
    (cv : SignalConv R F) (fuel save_intvl : Nat) (L L1 : LoopState σ F) (s3 : State σ F)
    (h : bsec_iot_loop_body E K cv fuel save_intvl L = some L1)
    (hge : (L.n_samples + 1) % 2 ^ 32 ≥ save_intvl)
    (hs3 : state_before_save E K cv fuel L = some s3)
    (hok : (E.bsec_get_state 0 K.BSEC_MAX_STATE_BLOB_SIZE K.BSEC_MAX_WORKBUFFER_SIZE
      s3.env).1.1 = K.BSEC_OK) :
    ∃ c ∈ callsSince L.w L1.w, c.is_state_save = true := by
  obtain ⟨s3', l1, l2, e, -, -, -, hsb⟩ := loop_body_spec E K cv fuel save_intvl L L1 h
  rw [hs3] at hsb
  obtain rfl : s3 = s3' := Option.some.inj hsb
  rw [callsSince_of_trace_eq _ _ _ e, if_pos hge, if_pos hok]
  exact ⟨.state_save
    (E.bsec_get_state 0 K.BSEC_MAX_STATE_BLOB_SIZE K.BSEC_MAX_WORKBUFFER_SIZE s3.env).1.2.1
    (E.bsec_get_state 0 K.BSEC_MAX_STATE_BLOB_SIZE K.BSEC_MAX_WORKBUFFER_SIZE s3.env).1.2.2,
    by simp, rfl⟩

/-- A run of `k + 1` iterations is one iteration followed by a run of `k`. -/
theorem loop_succ_of_body {σ R F : Type} [Zero F] (E : Env σ R F) (K : Consts)
    (cv : SignalConv R F) (fuel save_intvl k : Nat) (L L2 : LoopState σ F)
    (hb : bsec_iot_loop_body E K cv fuel save_intvl L = some L2) :
    bsec_iot_loop E K cv fuel save_intvl (k + 1) L = bsec_iot_loop E K cv fuel save_intvl k L2 := by
  simp only [bsec_iot_loop, hb]

/-- A run that is long enough for the counter to reach the interval requests the
engine state, and saves it if the `bsec_get_state` calls of the run report OK. -/
theorem loop_reaches_save {σ R F : Type} [Zero F] (E : Env σ R F) (K : Consts)
    (cv : SignalConv R F) (fuel save_intvl : Nat) (hu32 : save_intvl < 2 ^ 32) (N : Nat) :
    ∀ L L1 : LoopState σ F, bsec_iot_loop E K cv fuel save_intvl N L = some L1 →
      L.n_samples < save_intvl → save_intvl ≤ L.n_samples + N →
      (∃ c ∈ callsSince L.w L1.w, c.is_get_state = true) ∧
      ((∀ k < N, ∀ (A : LoopState σ F) (s3 : State σ F),
          bsec_iot_loop E K cv fuel save_intvl k L = some A →
          state_before_save E K cv fuel A = some s3 →
          (A.n_samples + 1) % 2 ^ 32 ≥ save_intvl →
          (E.bsec_get_state 0 K.BSEC_MAX_STATE_BLOB_SIZE K.BSEC_MAX_WORKBUFFER_SIZE
            s3.env).1.1 = K.BSEC_OK) →
        ∃ c ∈ callsSince L.w L1.w, c.is_state_save = true) := by
  induction N with
  | zero =>
    intro L L1 _ hlt hle
    omega
  | succ n ih =>
    intro L L1 h hlt hle
    simp only [bsec_iot_loop] at h
    cases hb : bsec_iot_loop_body E K cv fuel save_intvl L with
    | none => rw [hb] at h; exact absurd h (by simp)
    | some L2 =>
      rw [hb] at h
      obtain ⟨la, ea⟩ := loop_body_trace E K cv fuel save_intvl L L2 hb
      obtain ⟨lb, eb⟩ := loop_trace E K cv fuel save_intvl n L2 L1 h
      obtain ⟨c1, c2, c3⟩ := callsSince_append L.w L2.w L1.w la lb ea eb
      obtain ⟨p1, -, p3⟩ := loop_body_persistence E K cv fuel save_intvl L L2 hb
      have hmod : (L.n_samples + 1) % 2 ^ 32 = L.n_samples + 1 :=
        Nat.mod_eq_of_lt (by omega)
      by_cases hge : (L.n_samples + 1) % 2 ^ 32 ≥ save_intvl
      · obtain ⟨⟨c, hc, hcg⟩, -⟩ := p1 hge
        refine ⟨⟨c, ?_, hcg⟩, ?_⟩
        · rw [c3]; rw [c1] at hc; exact List.mem_append_left _ hc
        · intro hok
          obtain ⟨s3, -, -, -, -, -, -, hsb⟩ := loop_body_spec E K cv fuel save_intvl L L2 hb
          obtain ⟨d, hd, hds⟩ := loop_body_save_call E K cv fuel save_intvl L L2 s3 hb hge hsb
            (hok 0 (by omega) L s3 rfl hsb hge)
          refine ⟨d, ?_, hds⟩
          rw [c3]; rw [c1] at hd; exact List.mem_append_left _ hd
      · rw [if_neg hge, hmod] at p3
        rw [hmod] at hge
        obtain ⟨⟨c, hc, hcg⟩, hsave⟩ := ih L2 L1 h (by omega) (by omega)
        refine ⟨⟨c, ?_, hcg⟩, ?_⟩
        · rw [c3]; rw [c2] at hc; exact List.mem_append_right _ hc
        · intro hok
          obtain ⟨d, hd, hds⟩ := hsave (by
            intro k hk A s3 hA
            exact hok (k + 1) (by omega) A s3
              (by rw [loop_succ_of_body E K cv fuel save_intvl k L L2 hb]; exact hA))
          refine ⟨d, ?_, hds⟩
          rw [c3]; rw [c2] at hd; exact List.mem_append_right _ hd

/-- Among the polls within the fuel, one that reports another mode than forced
mode has a first such poll. -/
theorem exists_first_stop {σ R F : Type} (E : Env σ R F) (K : Consts) (dev : bme68x_dev)
    (e : σ) (fuel : Nat)
    (h : ∃ n, n ≤ fuel ∧ polled_mode E dev n e ≠ K.BME68X_FORCED_MODE) :
    ∃ n, n ≤ fuel ∧ (∀ j < n, polled_mode E dev j e = K.BME68X_FORCED_MODE) ∧
      polled_mode E dev n e ≠ K.BME68X_FORCED_MODE := by
  classical
  have hex : ∃ n, polled_mode E dev n e ≠ K.BME68X_FORCED_MODE := by
    obtain ⟨n, -, hn⟩ := h
    exact ⟨n, hn⟩
  refine ⟨Nat.find hex, ?_, ?_, Nat.find_spec hex⟩
  · obtain ⟨n, hle, hn⟩ := h
    exact le_trans (Nat.find_min' hex hn) hle
  · intro j hj
    exact not_not.1 (Nat.find_min hex hj)

/-- One iteration returns when, in it, some poll within the fuel reports another
mode than forced mode. -/
theorem loop_body_returns {σ R F : Type} [Zero F] (E : Env σ R F) (K : Consts)
    (cv : SignalConv R F) (fuel save_intvl : Nat) (L : LoopState σ F)
    (h : ∃ n, n ≤ fuel ∧
      polled_mode E L.w.bme68x n (loop_first_poll_env E K L) ≠ K.BME68X_FORCED_MODE) :
    ∃ L1, bsec_iot_loop_body E K cv fuel save_intvl L = some L1 := by
  obtain ⟨n, hn, hforced, hstop⟩ := exists_first_stop E K L.w.bme68x _ fuel h
  have hdev : (loop_trigger_start E L).2.bme68x = L.w.bme68x := by
    simp [loop_trigger_start, State.call]
  obtain ⟨t, ht, -⟩ := trigger_measurement_polls E K fuel n (loop_trigger_start E L).1
    (loop_trigger_start E L).2 hn
    (by rw [hdev]; exact hforced) (by rw [hdev]; exact hstop)
  have ht' : bme68x_bsec_trigger_measurement E K fuel
      (E.bsec_sensor_control (wrap64 ((E.get_timestamp_us L.w.env).1 * 1000))
        (L.w.call .get_timestamp_us (E.get_timestamp_us L.w.env).2).env).1.2
      ((L.w.call .get_timestamp_us (E.get_timestamp_us L.w.env).2).call
        (.bsec_sensor_control (wrap64 ((E.get_timestamp_us L.w.env).1 * 1000)))
        (E.bsec_sensor_control (wrap64 ((E.get_timestamp_us L.w.env).1 * 1000))
          (L.w.call .get_timestamp_us (E.get_timestamp_us L.w.env).2).env).2) = some t := ht
  simp only [bsec_iot_loop_body, ht']
  exact ⟨_, rfl⟩

/-- A run of `N` iterations completes when, in each of its iterations, some poll
within the fuel reports another mode than forced mode. -/
theorem loop_returns {σ R F : Type} [Zero F] (E : Env σ R F) (K : Consts)
    (cv : SignalConv R F) (fuel save_intvl : Nat) (N : Nat) :
    ∀ L : LoopState σ F,
      (∀ k < N, ∀ A : LoopState σ F, bsec_iot_loop E K cv fuel save_intvl k L = some A →
        ∃ n, n ≤ fuel ∧
          polled_mode E A.w.bme68x n (loop_first_poll_env E K A) ≠ K.BME68X_FORCED_MODE) →
      ∃ L1, bsec_iot_loop E K cv fuel save_intvl N L = some L1 := by
  induction N with
  | zero => intro L _; exact ⟨L, rfl⟩
  | succ n ih =>
    intro L hpolls
    obtain ⟨L2, hb⟩ := loop_body_returns E K cv fuel save_intvl L (hpolls 0 (by omega) L rfl)
    obtain ⟨L1, h1⟩ := ih L2 (by
      intro k hk A hA
      exact hpolls (k + 1) (by omega) A
        (by rw [loop_succ_of_body E K cv fuel save_intvl k L L2 hb]; exact hA))
    exact ⟨L1, by rw [loop_succ_of_body E K cv fuel save_intvl n L L2 hb]; exact h1⟩

/-- Claim C5, as amended: for every save interval of at least 1 (a `uint32_t`)
and every run of N consecutive iterations of `bsec_iot_loop` with N greater than
or equal to the save interval, starting from a sample counter of 0, the engine
state is requested (`bsec_get_state`) at least once; provided every
`bsec_get_state` call of the run reports OK, the `state_save` callback is called
at least once; and immediately after each save the sample counter is 0, strictly
less than the save interval.  The run is shown to complete: `hpolls` says that in
each of its iterations the sensor leaves forced mode within the polls the fuel
allows. -/
theorem loop_saves_state_every_interval {σ R F : Type} [Zero F] (E : Env σ R F) (K : Consts)
    (cv : SignalConv R F) (fuel save_intvl N : Nat) (L0 : LoopState σ F)
    (hpos : 1 ≤ save_intvl) (hu32 : save_intvl < 2 ^ 32) (hN : save_intvl ≤ N)
    (h0 : L0.n_samples = 0)
    (hpolls : ∀ k < N, ∀ A : LoopState σ F,
      bsec_iot_loop E K cv fuel save_intvl k L0 = some A →
      ∃ n, n ≤ fuel ∧
        polled_mode E A.w.bme68x n (loop_first_poll_env E K A) ≠ K.BME68X_FORCED_MODE) :
    ∃ L, bsec_iot_loop E K cv fuel save_intvl N L0 = some L ∧
      (∃ c ∈ callsSince L0.w L.w, c.is_get_state = true) ∧
      ((∀ k < N, ∀ (A : LoopState σ F) (s3 : State σ F),
          bsec_iot_loop E K cv fuel save_intvl k L0 = some A →
          state_before_save E K cv fuel A = some s3 →
          (A.n_samples + 1) % 2 ^ 32 ≥ save_intvl →
          (E.bsec_get_state 0 K.BSEC_MAX_STATE_BLOB_SIZE K.BSEC_MAX_WORKBUFFER_SIZE
            s3.env).1.1 = K.BSEC_OK) →
        ∃ c ∈ callsSince L0.w L.w, c.is_state_save = true) ∧
      (∀ (k : Nat) (A B : LoopState σ F),
        bsec_iot_loop E K cv fuel save_intvl k L0 = some A →
        bsec_iot_loop_body E K cv fuel save_intvl A = some B →
        (∃ c ∈ callsSince A.w B.w, c.is_state_save = true) →
        B.n_samples = 0 ∧ B.n_samples < save_intvl) := by
  obtain ⟨L, hrun⟩ := loop_returns E K cv fuel save_intvl N L0 hpolls
  obtain ⟨hget, hsave⟩ := loop_reaches_save E K cv fuel save_intvl hu32 N L0 L hrun
    (by omega) (by omega)
  refine ⟨L, hrun, hget, hsave, ?_⟩
  intro k A B _ hbody hc
  obtain ⟨-, p2, p3⟩ := loop_body_persistence E K cv fuel save_intvl A B hbody
  obtain ⟨c, hmem, hcs⟩ := hc
  have hge := p2 ⟨c, hmem, Or.inl hcs⟩
  rw [if_pos hge] at p3
  exact ⟨p3, by omega⟩

/-- Claim C5, amended statement at a concrete run: two iterations with a save
interval of 2, a sensor that is in forced mode for one poll after each trigger,
and an engine that reports OK; the run completes and `state_save` is called. -/
theorem loop_saves_state_every_interval_witness :
    ∃ L, bsec_iot_loop (simEnv simCfg) vendorConsts simConv 10 2 2
          { w := simState, n_samples := 0 } = some L ∧
      ∃ c ∈ callsSince simState L.w, c.is_state_save = true := by
  obtain ⟨L, hrun, -, hsave, -⟩ :=
    loop_saves_state_every_interval (simEnv simCfg) vendorConsts simConv 10 2 2
      { w := simState, n_samples := 0 } (by decide) (by decide) (by decide) rfl
      (by
        intro k hk A hA
        rcases k with _ | _ | k
        · simp only [bsec_iot_loop, Option.some.injEq] at hA
          subst hA
          exact ⟨1, by decide, by decide⟩
        · have hA' : A = (bsec_iot_loop (simEnv simCfg) vendorConsts simConv 10 2 1
              { w := simState, n_samples := 0 }).get (by decide) := by
            apply Option.some.inj
            rw [← hA, Option.some_get]
          subst hA'
          exact ⟨1, by decide, by decide⟩
        · omega)
  exact ⟨L, hrun, hsave (fun _ _ _ _ _ _ _ => rfl)⟩

end BsecIntegration
